import Mathlib

/-!
Shallow embedding of `partition.py` (an MBR / GPT / BSD-disklabel partition
table reader) together with proofs about its decoding behaviour.

Modelling conventions:
* A Python file object is a `ByteSource`: immutable underlying bytes plus a
  cursor.  `seek` sets the cursor absolutely (and records the offset in a
  ghost `seekLog`, used only to state which offsets the code seeks to);
  `read n` returns the next `min n remaining` bytes and advances the cursor,
  exactly like `file.read` on a regular file.
* Bytes are natural numbers; images supply values `< 256`.  `struct.unpack`
  of a little-endian integer field becomes `leNat` of the byte slice;
  `struct.unpack` raising `struct.error` on a length mismatch becomes the
  `PyErr.structError` outcome.
* Python exceptions become the `PyErr` sum; `try/except` blocks become
  matches on `Except PyErr`.  `RecursionError` (CPython's recursion limit)
  is modelled by a fuel parameter on the recursive EBR walk: exhausting the
  fuel is exactly CPython exhausting its recursion limit.
* The source line `data = fp.read(...)` inside `MBRTable.read_ebr_partition`
  reads from the module-global `fp`, not `self.fp`.  In the only call path
  the program itself creates (`get_info` called from `__main__`), the global
  `fp` is the very same file object as `self.fp`, so seek-then-read acts on
  one cursor; `read_ebr_partition` below models that aliased execution.
  `read_ebr_partition_g` models the faithful letter of the code with the
  global stream as a separate (possibly absent) object.
-/

namespace Partition

set_option maxRecDepth 100000

deriving instance DecidableEq for Except

/-- A seekable, readable stream of bytes (Python file object). `seekLog` is a
ghost trace of the absolute offsets passed to `seek`, used only in
specifications. -/
structure ByteSource where
  data : List Nat
  pos : Nat
  seekLog : List Nat
deriving DecidableEq

/-- Python `fp.seek(off)`: set the cursor absolutely. -/
def ByteSource.seek (s : ByteSource) (off : Nat) : ByteSource :=
  ⟨s.data, off, s.seekLog ++ [off]⟩

/-- Byte slice `l[off : off+len]`. -/
def slice (l : List Nat) (off len : Nat) : List Nat :=
  (l.drop off).take len

/-- Python `fp.read(n)`: return up to `n` bytes from the cursor and advance
it by the number of bytes actually returned (fewer at end of file). -/
def ByteSource.read (s : ByteSource) (n : Nat) : List Nat × ByteSource :=
  (slice s.data s.pos n, ⟨s.data, s.pos + (slice s.data s.pos n).length, s.seekLog⟩)

/-- Little-endian unsigned integer value of a byte list. -/
def leNat : List Nat → Nat
  | [] => 0
  | b :: bs => b + 256 * leNat bs

/-- The struct `p` (Pascal string) decoding of a 3-byte field `3p`: the first
byte is the length, at most 2 content bytes follow. -/
def pascalStr (bs : List Nat) : List Nat :=
  (bs.drop 1).take (min (bs.headD 0) 2)

/-- Sixteen zero bytes, the all-zero partition descriptor / chain
terminator. -/
def zeros16 : List Nat := List.replicate 16 0

/-- Python exceptions raised (directly or by libraries) in the decoding
paths of `partition.py`. -/
inductive PyErr where
  | mbrMissing : String → PyErr
  | mbrError : String → PyErr
  | gptMissing : String → PyErr
  | gptError : String → PyErr
  | disklabelMissing : String → PyErr
  | disklabelError : String → PyErr
  | structError : PyErr
  | recursionError : PyErr
  | attributeError : PyErr
  | nameError : PyErr
  | unicodeDecodeError : PyErr
deriving DecidableEq

/-- MBR_PARTITION_TYPE lookup table of `partition.py`. -/
def MBR_PARTITION_TYPE : Nat → Option String := fun t =>
  match t with
  | 0x00 => some "Empty"
  | 0x01 => some "FAT12"
  | 0x04 => some "FAT16 16-32MB"
  | 0x05 => some "Extended, CHS"
  | 0x06 => some "FAT16 32MB-2GB"
  | 0x07 => some "NTFS"
  | 0x0B => some "FAT32"
  | 0x0C => some "FAT32X"
  | 0x0E => some "FAT16X"
  | 0x0F => some "Extended, LBA"
  | 0x11 => some "Hidden FAT12"
  | 0x14 => some "Hidden FAT16,16-32MB"
  | 0x15 => some "Hidden Extended, CHS"
  | 0x16 => some "Hidden FAT16,32MB-2GB"
  | 0x17 => some "Hidden NTFS"
  | 0x1B => some "Hidden FAT32"
  | 0x1C => some "Hidden FAT32X"
  | 0x1E => some "Hidden FAT16X"
  | 0x1F => some "Hidden Extended, LBA"
  | 0x27 => some "Windows recovery environment"
  | 0x39 => some "Plan 9"
  | 0x3C => some "PartitionMagic recovery partition"
  | 0x42 => some "Windows dynamic extended partition marker"
  | 0x44 => some "GoBack partition"
  | 0x63 => some "Unix System V"
  | 0x64 => some "PC-ARMOUR protected partition"
  | 0x81 => some "Minix"
  | 0x82 => some "Linux Swap"
  | 0x83 => some "Linux"
  | 0x84 => some "Hibernation"
  | 0x85 => some "Linux Extended"
  | 0x86 => some "Fault-tolerant FAT16B volume set"
  | 0x87 => some "Fault-tolerant NTFS volume set"
  | 0x88 => some "Linux plaintext"
  | 0x8E => some "Linux LVM"
  | 0x93 => some "Hidden Linux"
  | 0x9F => some "BSD/OS"
  | 0xA0 => some "Hibernation"
  | 0xA1 => some "Hibernation"
  | 0xA5 => some "FreeBSD"
  | 0xA6 => some "OpenBSD"
  | 0xA8 => some "Mac OS X"
  | 0xA9 => some "NetBSD"
  | 0xAB => some "Mac OS X Boot"
  | 0xAF => some "Mac OS X HFS"
  | 0xBE => some "Solaris 8 boot"
  | 0xBF => some "Solaris x86"
  | 0xE8 => some "Linux Unified Key Setup"
  | 0xEB => some "BFS"
  | 0xEE => some "EFI GPT protec MBR"
  | 0xEF => some "EFI system"
  | 0xFA => some "Bochs x86 emulator"
  | 0xFB => some "VMware File System"
  | 0xFC => some "VMware Swap"
  | 0xFD => some "Linux RAID"
  | _ => none

/-- MBR_EXTENDED_TYPE: the five extended-partition type codes. -/
def MBR_EXTENDED_TYPE : List Nat := [0x05, 0x0F, 0x15, 0x1F, 0x85]

/-- A decoded MBR partition entry (namedtuple `MBRPartition` with the
`index`, `active`, `type_str` extras). -/
structure MBRPartition where
  status : Nat
  chs_first : List Nat
  type : Nat
  chs_last : List Nat
  lba : Nat
  sectors : Nat
  index : Nat
  active : Bool
  type_str : String
deriving DecidableEq

/-- The value `read_mbr_partition` builds from a 16-byte slot whose type code
is non-zero (fields per MBR_PARTITION_FORMAT `<B3pB3pLL`, plus the extras
after `_replace`). -/
def mkMbrPartition (partstr : List Nat) (num : Nat) : MBRPartition :=
  { status := partstr.getD 0 0
    chs_first := pascalStr (slice partstr 1 3)
    type := partstr.getD 4 0
    chs_last := pascalStr (slice partstr 5 3)
    lba := leNat (slice partstr 8 4)
    sectors := leNat (slice partstr 12 4)
    index := num
    active := decide (0x80 ≤ partstr.getD 0 0)
    type_str := (MBR_PARTITION_TYPE (partstr.getD 4 0)).getD "Unknown" }

/-- `MBRTable.read_mbr_partition`: decode a 16-byte slot; a type code of 0
returns `None`.  Callers always pass exactly 16 bytes (slices of an unpacked
512-byte record), so `struct.unpack` cannot fail here. -/
def read_mbr_partition (partstr : List Nat) (num : Nat) : Option MBRPartition :=
  if partstr.getD 4 0 ≠ 0 then some (mkMbrPartition partstr num) else none

/-- The decoded 512-byte MBR sector (namedtuple `MBRHeader` per
MBR_FORMAT). -/
structure MBRHeader where
  drive_signature : List Nat
  partition1 : List Nat
  partition2 : List Nat
  partition3 : List Nat
  partition4 : List Nat
  signature : List Nat
deriving DecidableEq

/-- `MBRTable.read_mbr_header`: read 512 bytes from the current position
(the constructor has just seeked to 0), unpack per MBR_FORMAT (440 bytes
boot code, 4-byte drive signature, 2 reserved, four 16-byte slots, 2-byte
signature) and require the boot signature `55 AA`. -/
def read_mbr_header (fp : ByteSource) : Except PyErr (MBRHeader × ByteSource) :=
  let r := fp.read 512
  let data := r.1
  if data.length ≠ 512 then .error .structError
  else
    let header : MBRHeader :=
      { drive_signature := slice data 440 4
        partition1 := slice data 446 16
        partition2 := slice data 462 16
        partition3 := slice data 478 16
        partition4 := slice data 494 16
        signature := slice data 510 2 }
    if header.signature ≠ [0x55, 0xAA] then .error (.mbrMissing "Bad MBR signature")
    else .ok (header, r.2)

/-- `MBRTable.read_ebr_partition`, modelling the aliased execution in which
the module-global `fp` is the same file object as `self.fp` (the program's
own call path): `self.fp.seek((extended_lba + lba) * 512)` followed by a
512-byte read on the same cursor, unpack per EBR_FORMAT (446 bytes padding,
16-byte partition, 16-byte next-EBR, 32 reserved, 2-byte signature), check
the `55 AA` signature, emit `read_mbr_partition(ebr.partition, num)`
(`None` when the descriptor's type code is 0), and recurse on a non-zero
next-EBR descriptor.  The fuel argument is CPython's recursion limit;
exhausting it is `RecursionError`.  A `None` next-EBR decode (type code 0 in
a non-zero descriptor) makes the source dereference `None.lba`, an
`AttributeError`. -/
def read_ebr_partition (fp : ByteSource) (extended_lba lba num : Nat) :
    Nat → Except PyErr (List (Option MBRPartition) × ByteSource)
  | 0 => .error .recursionError
  | fuel + 1 =>
    let fp1 := fp.seek ((extended_lba + lba) * 512)
    let r := fp1.read 512
    let data := r.1
    if data.length ≠ 512 then .error .structError
    else
      let ebr_partition := slice data 446 16
      let ebr_next := slice data 462 16
      let ebr_signature := slice data 510 2
      if ebr_signature ≠ [0x55, 0xAA] then .error (.mbrError "Bad EBR signature")
      else
        let parts : List (Option MBRPartition) := [read_mbr_partition ebr_partition num]
        if ebr_next ≠ zeros16 then
          match read_mbr_partition ebr_next 0 with
          | none => .error .attributeError
          | some part_next_ebr =>
            match read_ebr_partition r.2 extended_lba part_next_ebr.lba (num + 1) fuel with
            | .error e => .error e
            | .ok (more, fp3) => .ok (parts ++ more, fp3)
        else .ok (parts, r.2)

/-- The primary entries collected by `MBRTable.read_mbr_partitions`: the loop
`for i in range(1, 4)` runs over slots 1, 2 and 3 only (slot 4 of the header
is never examined), keeping the non-`None` results. -/
def mbrPrimaries (hdr : MBRHeader) : List MBRPartition :=
  [read_mbr_partition hdr.partition1 1,
   read_mbr_partition hdr.partition2 2,
   read_mbr_partition hdr.partition3 3].filterMap id

/-- `MBRTable.read_mbr_partitions`: collect the primary entries, find the
first one whose type is in MBR_EXTENDED_TYPE, and if present extend the list
with the EBR walk started at `(extendpart.lba, 0, 5)`.  Primary entries are
wrapped in `some`; the EBR walk may contribute `none` elements (Python
appends `None` values returned by `read_mbr_partition`). -/
def read_mbr_partitions (fp : ByteSource) (hdr : MBRHeader) (fuel : Nat) :
    Except PyErr (List (Option MBRPartition) × ByteSource) :=
  let parts := mbrPrimaries hdr
  match parts.find? (fun p => decide (p.type ∈ MBR_EXTENDED_TYPE)) with
  | none => .ok (parts.map some, fp)
  | some extendpart =>
    match read_ebr_partition fp extendpart.lba 0 5 fuel with
    | .error e => .error e
    | .ok (logical, fp2) => .ok (parts.map some ++ logical, fp2)

/-- The `MBRInfo` namedtuple `(lba_size, header, partitions)`; `lba_size` is
the literal `512` of the source. -/
structure MBRInfo where
  lba_size : Nat
  header : MBRHeader
  partitions : List (Option MBRPartition)
deriving DecidableEq

/-- The body of the `try` block of `MBRTable.__init__` (after the seek to
offset 0 that precedes it). -/
def mbrDecodeBody (fp : ByteSource) (fuel : Nat) : Except PyErr (MBRInfo × ByteSource) :=
  let fp0 := fp.seek 0
  match read_mbr_header fp0 with
  | .error e => .error e
  | .ok (hdr, fp1) =>
    match read_mbr_partitions fp1 hdr fuel with
    | .error e => .error e
    | .ok (parts, fp2) => .ok ({ lba_size := 512, header := hdr, partitions := parts }, fp2)

/-- The caller-visible state of a scheme parser object after construction:
its `info` attribute (initialised to `None`, assigned only as the last
statement of the `try` block) and whatever diagnostic the constructor
printed to stdout. -/
structure Vis (α : Type) where
  info : Option α
  printed : Option String
deriving DecidableEq

/-- `MBRTable.__init__` outcome: `MBRMissing` is caught silently, any other
`MBRError` is caught and prints `Error reading MBR!`; every other exception
(struct.error, RecursionError, AttributeError, ...) propagates out of the
constructor (the `info` attribute is `None` in every non-success case). -/
def mbrCtorE (fp : ByteSource) (fuel : Nat) : Except PyErr (Vis MBRInfo) :=
  match mbrDecodeBody fp fuel with
  | .ok (v, _) => .ok ⟨some v, none⟩
  | .error (.mbrMissing _) => .ok ⟨none, none⟩
  | .error (.mbrError _) => .ok ⟨none, some "Error reading MBR!"⟩
  | .error e => .error e

/-- The `info` attribute a caller can observe on the object: `None` unless
the whole decode succeeded (when the constructor itself raises, the
attribute was still `None`). -/
def ctorInfo {α : Type} : Except PyErr (Vis α) → Option α
  | .ok v => v.info
  | .error _ => none

/-- `MBRTable.read_ebr_partition` taken at the letter of the source: the
seek goes to `self.fp` but the read goes to the module-global `fp`, here a
separate (possibly unbound) stream with its own cursor.  An unbound global
`fp` is a `NameError`. -/
def read_ebr_partition_g (selfFp : ByteSource) (globalFp : Option ByteSource)
    (extended_lba lba num : Nat) :
    Nat → Except PyErr (List (Option MBRPartition) × ByteSource × ByteSource)
  | 0 => .error .recursionError
  | fuel + 1 =>
    let s1 := selfFp.seek ((extended_lba + lba) * 512)
    match globalFp with
    | none => .error .nameError
    | some g =>
      let r := g.read 512
      let data := r.1
      if data.length ≠ 512 then .error .structError
      else
        let ebr_partition := slice data 446 16
        let ebr_next := slice data 462 16
        let ebr_signature := slice data 510 2
        if ebr_signature ≠ [0x55, 0xAA] then .error (.mbrError "Bad EBR signature")
        else
          let parts : List (Option MBRPartition) := [read_mbr_partition ebr_partition num]
          if ebr_next ≠ zeros16 then
            match read_mbr_partition ebr_next 0 with
            | none => .error .attributeError
            | some part_next_ebr =>
              match read_ebr_partition_g s1 (some r.2) extended_lba part_next_ebr.lba (num + 1) fuel with
              | .error e => .error e
              | .ok (more, fps) => .ok (parts ++ more, fps)
          else .ok (parts, s1, r.2)

/-- The `try`-block body of `MBRTable.__init__` at the letter of the source:
header and primary slots are read from `self.fp`, the EBR sectors from the
module-global `fp`. -/
def mbrDecodeBodyG (selfFp : ByteSource) (globalFp : Option ByteSource) (fuel : Nat) :
    Except PyErr MBRInfo :=
  match read_mbr_header (selfFp.seek 0) with
  | .error e => .error e
  | .ok (hdr, fp1) =>
    let parts := mbrPrimaries hdr
    match parts.find? (fun p => decide (p.type ∈ MBR_EXTENDED_TYPE)) with
    | none => .ok { lba_size := 512, header := hdr, partitions := parts.map some }
    | some extendpart =>
      match read_ebr_partition_g fp1 globalFp extendpart.lba 0 5 fuel with
      | .error e => .error e
      | .ok (logical, _) =>
        .ok { lba_size := 512, header := hdr, partitions := parts.map some ++ logical }

/-- The Python-3 branch of the source sets `split_literal = "0"` — the digit
zero character, not the NUL byte of the Python-2 branch (`b"\0"`). -/
def split_literal : String := "0"

/-- Group a byte list into UTF-16 code units, little-endian; fails on odd
length (Python `UnicodeDecodeError`). -/
def utf16PairsLE : List Nat → Option (List Nat)
  | [] => some []
  | b0 :: b1 :: rest => (utf16PairsLE rest).map (fun us => (b0 + 256 * b1) :: us)
  | [_] => none

/-- Group a byte list into UTF-16 code units, big-endian. -/
def utf16PairsBE : List Nat → Option (List Nat)
  | [] => some []
  | b0 :: b1 :: rest => (utf16PairsBE rest).map (fun us => (256 * b0 + b1) :: us)
  | [_] => none

/-- Combine surrogate pairs into code points; a lone surrogate is a
`UnicodeDecodeError`. -/
def combineSurr : List Nat → Option (List Nat)
  | [] => some []
  | [u] => if 0xD800 ≤ u ∧ u < 0xE000 then none else some [u]
  | u :: v :: rest =>
    if 0xD800 ≤ u ∧ u < 0xDC00 then
      if 0xDC00 ≤ v ∧ v < 0xE000 then
        (combineSurr rest).map
          (fun cs => (0x10000 + (u - 0xD800) * 0x400 + (v - 0xDC00)) :: cs)
      else none
    else if 0xD800 ≤ u ∧ u < 0xE000 then none
    else (combineSurr (v :: rest)).map (fun cs => u :: cs)

/-- Python `bytes.decode("utf-16")`: consume a BOM if present, otherwise use
the machine's native order — little-endian on the hosts this program runs
on. -/
def decode_utf16 (bs : List Nat) : Except PyErr String :=
  let units :=
    match bs with
    | 0xFF :: 0xFE :: rest => utf16PairsLE rest
    | 0xFE :: 0xFF :: rest => utf16PairsBE rest
    | _ => utf16PairsLE bs
  match units with
  | none => .error .unicodeDecodeError
  | some us =>
    match combineSurr us with
    | none => .error .unicodeDecodeError
    | some cs => .ok (String.mk (cs.map Char.ofNat))

/-- The initial segment of a character list before the first occurrence of
the (non-empty) separator `sep`. -/
def splitHeadAux (sep : List Char) : List Char → List Char
  | [] => []
  | c :: rest => if List.isPrefixOf sep (c :: rest) then [] else c :: splitHeadAux sep rest

/-- Python `s.split(sep, 1)[0]` for a non-empty separator: everything before
the first occurrence of `sep`, the whole string when `sep` does not
occur. -/
def pySplitHead (sep s : String) : String := String.mk (splitHeadAux sep.data s.data)

/-- Uppercase hexadecimal digit. -/
def hexDigitU (n : Nat) : Char :=
  if n < 10 then Char.ofNat (48 + n) else Char.ofNat (55 + n)

/-- Two uppercase hex digits of one byte. -/
def byteHexU (b : Nat) : String :=
  String.mk [hexDigitU (b / 16 % 16), hexDigitU (b % 16)]

/-- Hex string of a byte list. -/
def bytesHexU (bs : List Nat) : String :=
  String.join (bs.map byteHexU)

/-- `str(uuid.UUID(bytes_le=bs)).upper()`: the first three GUID fields are
stored little-endian on disk and reversed for display; canonical 8-4-4-4-12
uppercase hyphenated form. -/
def uuid_str_le (bs : List Nat) : String :=
  bytesHexU (slice bs 0 4).reverse ++ "-" ++ bytesHexU (slice bs 4 2).reverse ++ "-" ++
    bytesHexU (slice bs 6 2).reverse ++ "-" ++ bytesHexU (slice bs 8 2) ++ "-" ++
    bytesHexU (slice bs 10 6)

/-- GPT_GUID lookup table of `partition.py` (type GUID to label). -/
def GPT_GUID : String → Option String := fun g =>
  match g with
  | "024DEE41-33E7-11D3-9D69-0008C781F39F" => some "MBR partition scheme"
  | "C12A7328-F81F-11D2-BA4B-00A0C93EC93B" => some "EFI System partition"
  | "21686148-6449-6E6F-744E-656564454649" => some "BIOS Boot partition"
  | "D3BFE2DE-3DAF-11DF-BA40-E3A556D89593" => some "Intel Fast Flash (iFFS) partition (for Intel Rapid Start technology)"
  | "F4019732-066E-4E12-8273-346C5641494F" => some "Sony boot partition"
  | "BFBFAFE7-A34F-448A-9A5B-6213EB736C22" => some "Lenovo boot partition / Ceph Journal"
  | "E3C9E316-0B5C-4DB8-817D-F92DF00215AE" => some "Microsoft Reserved Partition (MSR)"
  | "EBD0A0A2-B9E5-4433-87C0-68B6B72699C7" => some "Basic data partition"
  | "5808C8AA-7E8F-42E0-85D2-E1E90434CFB3" => some "Logical Disk Manager (LDM) metadata partition"
  | "AF9B60A0-1431-4F62-BC68-3311714A69AD" => some "Logical Disk Manager data partition"
  | "DE94BBA4-06D1-4D40-A16A-BFD50179D6AC" => some "Windows Recovery Environment"
  | "37AFFC90-EF7D-4E96-91C3-2D7AE055B174" => some "IBM General Parallel File System (GPFS) partition"
  | "75894C1E-3AEB-11D3-B7C1-7B03A0000000" => some "Data partition"
  | "E2A1E728-32E3-11D6-A682-7B03A0000000" => some "Service Partition"
  | "0FC63DAF-8483-4772-8E79-3D69D8477DE4" => some "Linux filesystem data"
  | "A19D880F-05FC-4D3B-A006-743F0F84911E" => some "RAID partition"
  | "0657FD6D-A4AB-43C4-84E5-0933C84B4F4F" => some "Swap partition"
  | "E6D6D379-F507-44C2-A23C-238F2A3DF928" => some "Logical Volume Manager (LVM) partition"
  | "933AC7E1-2EB4-4F13-B844-0E14E2AEF915" => some "/home partition"
  | "3B8F8425-20E0-4F3B-907F-1A25A76F98E8" => some "/srv partition"
  | "7FFEC5C9-2D00-49B7-8941-3EA10A5586B7" => some "Plain dm-crypt partition"
  | "CA7D7CCB-63ED-4C53-861C-1742536059CC" => some "LUKS partition"
  | "8DA63339-0007-60C0-C436-083AC8230908" => some "Reserved"
  | "83BD6B9D-7F41-11DC-BE0B-001560B84F0F" => some "Boot partition"
  | "516E7CB4-6ECF-11D6-8FF8-00022D09712B" => some "Data partition"
  | "516E7CB5-6ECF-11D6-8FF8-00022D09712B" => some "Swap partition"
  | "516E7CB6-6ECF-11D6-8FF8-00022D09712B" => some "Unix File System (UFS) partition"
  | "516E7CB8-6ECF-11D6-8FF8-00022D09712B" => some "Vinum volume manager partition"
  | "516E7CBA-6ECF-11D6-8FF8-00022D09712B" => some "ZFS partition"
  | "48465300-0000-11AA-AA11-00306543ECAC" => some "Hierarchical File System Plus (HFS+) partition"
  | "55465300-0000-11AA-AA11-00306543ECAC" => some "Apple UFS"
  | "6A898CC3-1DD2-11B2-99A6-080020736631" => some "ZFS / usr partition "
  | "52414944-0000-11AA-AA11-00306543ECAC" => some "Apple RAID partition"
  | "52414944-5F4F-11AA-AA11-00306543ECAC" => some "Apple RAID partition, offline"
  | "426F6F74-0000-11AA-AA11-00306543ECAC" => some "Apple Boot partition"
  | "4C616265-6C00-11AA-AA11-00306543ECAC" => some "Apple Label"
  | "5265636F-7665-11AA-AA11-00306543ECAC" => some "Apple TV Recovery partition"
  | "53746F72-6167-11AA-AA11-00306543ECAC" => some "Apple Core Storage (i.e. Lion FileVault) partition"
  | "6A82CB45-1DD2-11B2-99A6-080020736631" => some "Boot partition"
  | "6A85CF4D-1DD2-11B2-99A6-080020736631" => some "Root partition"
  | "6A87C46F-1DD2-11B2-99A6-080020736631" => some "Swap partition"
  | "6A8B642B-1DD2-11B2-99A6-080020736631" => some "Backup partition"
  | "6A8EF2E9-1DD2-11B2-99A6-080020736631" => some "/var partition"
  | "6A90BA39-1DD2-11B2-99A6-080020736631" => some "/home partition"
  | "6A9283A5-1DD2-11B2-99A6-080020736631" => some "Alternate sector"
  | "6A945A3B-1DD2-11B2-99A6-080020736631" => some "Reserved partition"
  | "6A9630D1-1DD2-11B2-99A6-080020736631" => some "Reserved partition"
  | "6A980767-1DD2-11B2-99A6-080020736631" => some "Reserved partition"
  | "6A96237F-1DD2-11B2-99A6-080020736631" => some "Reserved partition"
  | "6A8D2AC7-1DD2-11B2-99A6-080020736631" => some "Reserved partition"
  | "49F48D32-B10E-11DC-B99B-0019D1879648" => some "Swap partition"
  | "49F48D5A-B10E-11DC-B99B-0019D1879648" => some "FFS partition"
  | "49F48D82-B10E-11DC-B99B-0019D1879648" => some "LFS partition"
  | "49F48DAA-B10E-11DC-B99B-0019D1879648" => some "RAID partition"
  | "2DB519C4-B10F-11DC-B99B-0019D1879648" => some "Concatenated partition"
  | "2DB519EC-B10F-11DC-B99B-0019D1879648" => some "Encrypted partition"
  | "FE3A2A5D-4F32-41A7-B725-ACCC3285A309" => some "ChromeOS kernel"
  | "3CB8E202-3B7E-47DD-8A3C-7FF2A13CFCEC" => some "ChromeOS rootfs"
  | "2E0A753D-9E48-43B0-8337-B15192CB1B5E" => some "ChromeOS future use"
  | "42465331-3BA3-10F1-802A-4861696B7521" => some "Haiku BFS"
  | "85D5E45E-237C-11E1-B4B3-E89A8F7FC3A7" => some "Boot partition"
  | "85D5E45A-237C-11E1-B4B3-E89A8F7FC3A7" => some "Data partition"
  | "85D5E45B-237C-11E1-B4B3-E89A8F7FC3A7" => some "Swap partition"
  | "0394EF8B-237E-11E1-B4B3-E89A8F7FC3A7" => some "Unix File System (UFS) partition"
  | "85D5E45C-237C-11E1-B4B3-E89A8F7FC3A7" => some "Vinum volume manager partition"
  | "85D5E45D-237C-11E1-B4B3-E89A8F7FC3A7" => some "ZFS partition"
  | "45B0969E-9B03-4F30-B4C6-5EC00CEFF106" => some "Ceph dm-crypt Encrypted Journal"
  | "4FBD7E29-9D25-41B8-AFD0-062C0CEFF05D" => some "Ceph OSD"
  | "4FBD7E29-9D25-41B8-AFD0-5EC00CEFF05D" => some "Ceph dm-crypt OSD"
  | "89C57F98-2FE5-4DC0-89C1-F3AD0CEFF2BE" => some "Ceph disk in creation"
  | "89C57F98-2FE5-4DC0-89C1-5EC00CEFF2BE" => some "Ceph dm-crypt disk in creation"
  | _ => none

/-- The decoded GPT header (namedtuple `GPTHeader` per GPT_HEADER_FORMAT,
after the `_replace` that turns the raw disk GUID bytes into canonical
uppercase text). -/
structure GPTHeader where
  signature : List Nat
  revision_minor : Nat
  revision_major : Nat
  header_size : Nat
  crc32 : Nat
  current_lba : Nat
  backup_lba : Nat
  first_usable_lba : Nat
  last_usable_lba : Nat
  disk_guid : String
  part_entry_start_lba : Nat
  num_part_entries : Nat
  part_entry_size : Nat
  crc32_part_array : Nat
deriving DecidableEq

/-- `GPTTable.read_gpt_header`: seek to `1 * lba_size` (skip the protective
MBR), read the 92-byte header, check the `EFI PART` signature
(`GPTMissing`), require revision `major + minor/10 ≥ 1.0` and
`header_size ≥ 92` (`GPTError`).  The Python revision test compares IEEE
doubles; for 16-bit fields `major + fl(minor/10) < 1.0` holds exactly when
the rational `major + minor/10 < 1`, i.e. `10*major + minor < 10` (rounding
`minor/10` to the nearest double never crosses the boundary 1.0, which is
itself a double). -/
def read_gpt_header (fp : ByteSource) (lba_size : Nat) :
    Except PyErr (GPTHeader × ByteSource) :=
  let fp1 := fp.seek (1 * lba_size)
  let r := fp1.read 92
  let data := r.1
  if data.length ≠ 92 then .error .structError
  else
    let signature := slice data 0 8
    let revision_minor := leNat (slice data 8 2)
    let revision_major := leNat (slice data 10 2)
    let header_size := leNat (slice data 12 4)
    if signature ≠ [0x45, 0x46, 0x49, 0x20, 0x50, 0x41, 0x52, 0x54] then
      .error (.gptMissing "Bad GPT signature")
    else if 10 * revision_major + revision_minor < 10 then
      .error (.gptError ("Bad GPT revision: " ++ toString revision_major ++ "." ++
        toString revision_minor))
    else if header_size < 92 then
      .error (.gptError ("Bad GPT header size: " ++ toString header_size))
    else
      .ok ({ signature := signature
             revision_minor := revision_minor
             revision_major := revision_major
             header_size := header_size
             crc32 := leNat (slice data 16 4)
             current_lba := leNat (slice data 24 8)
             backup_lba := leNat (slice data 32 8)
             first_usable_lba := leNat (slice data 40 8)
             last_usable_lba := leNat (slice data 48 8)
             disk_guid := uuid_str_le (slice data 56 16)
             part_entry_start_lba := leNat (slice data 72 8)
             num_part_entries := leNat (slice data 80 4)
             part_entry_size := leNat (slice data 84 4)
             crc32_part_array := leNat (slice data 88 4) }, r.2)

/-- A decoded GPT partition entry (namedtuple `GPTPartition` with the
`index` and `type` extras, after `_replace`). -/
structure GPTPartition where
  guid : String
  uid : String
  first_lba : Nat
  last_lba : Nat
  flags : Nat
  name : String
  index : Nat
  type : String
deriving DecidableEq

/-- The entry value built from one 128-byte block (given the already decoded
UTF-16 name text `nm`): GUIDs to canonical text, type resolved through
GPT_GUID (else `Unknown`), and the name split at the first occurrence of
`split_literal`. -/
def gptEntryVal (b : List Nat) (idx : Nat) (nm : String) : GPTPartition :=
  { guid := uuid_str_le (slice b 0 16)
    uid := uuid_str_le (slice b 16 16)
    first_lba := leNat (slice b 32 8)
    last_lba := leNat (slice b 40 8)
    flags := leNat (slice b 48 8)
    name := pySplitHead split_literal nm
    index := idx
    type := (GPT_GUID (uuid_str_le (slice b 0 16))).getD "Unknown" }

/-- Build one GPT entry from its 128 bytes; decoding the 72-byte name field
can raise `UnicodeDecodeError`. -/
def gptEntryMake (b : List Nat) (idx : Nat) : Except PyErr GPTPartition :=
  match decode_utf16 (slice b 56 72) with
  | .error e => .error e
  | .ok nm => .ok (gptEntryVal b idx nm)

/-- The entry loop of `GPTTable.read_gpt_partitions`: for each slot read
`part_entry_size` bytes; fewer than 128 bytes is
`GPTError("Short GPT partition entry #i")`; `struct.unpack` then requires
exactly 128 bytes (a declared entry size above 128 is a `struct.error`);
an all-zero type GUID is skipped with `continue`; other slots append an
entry carrying 1-based index `i + 1`. -/
def read_gpt_entries (fp : ByteSource) (entry_size : Nat) :
    Nat → Nat → Except PyErr (List GPTPartition × ByteSource)
  | 0, _ => .ok ([], fp)
  | count + 1, i =>
    let r := fp.read entry_size
    let data := r.1
    if data.length < 128 then
      .error (.gptError ("Short GPT partition entry #" ++ toString (i + 1)))
    else if data.length ≠ 128 then .error .structError
    else if slice data 0 16 = zeros16 then read_gpt_entries r.2 entry_size count (i + 1)
    else
      match gptEntryMake data (i + 1) with
      | .error e => .error e
      | .ok p =>
        match read_gpt_entries r.2 entry_size count (i + 1) with
        | .error e => .error e
        | .ok (ps, fp2) => .ok (p :: ps, fp2)

/-- `GPTTable.read_gpt_partitions`: seek to
`part_entry_start_lba * lba_size` and run the entry loop over
`num_part_entries` slots. -/
def read_gpt_partitions (fp : ByteSource) (hdr : GPTHeader) (lba_size : Nat) :
    Except PyErr (List GPTPartition × ByteSource) :=
  read_gpt_entries (fp.seek (hdr.part_entry_start_lba * lba_size))
    hdr.part_entry_size hdr.num_part_entries 0

/-- The `GPTInfo` namedtuple assembled by `GPTTable.__init__`: block size,
header, every header field copied beside it, and the partitions. -/
structure GPTInfo where
  lba_size : Nat
  header : GPTHeader
  revision_minor : Nat
  revision_major : Nat
  crc32 : Nat
  current_lba : Nat
  backup_lba : Nat
  first_usable_lba : Nat
  last_usable_lba : Nat
  disk_guid : String
  part_entry_start_lba : Nat
  num_part_entries : Nat
  part_entry_size : Nat
  crc32_part_array : Nat
  partitions : List GPTPartition
deriving DecidableEq

/-- Assemble the `GPTInfo` record from the decoded header and entries. -/
def mkGptInfo (blocksize : Nat) (hdr : GPTHeader) (parts : List GPTPartition) : GPTInfo :=
  { lba_size := blocksize
    header := hdr
    revision_minor := hdr.revision_minor
    revision_major := hdr.revision_major
    crc32 := hdr.crc32
    current_lba := hdr.current_lba
    backup_lba := hdr.backup_lba
    first_usable_lba := hdr.first_usable_lba
    last_usable_lba := hdr.last_usable_lba
    disk_guid := hdr.disk_guid
    part_entry_start_lba := hdr.part_entry_start_lba
    num_part_entries := hdr.num_part_entries
    part_entry_size := hdr.part_entry_size
    crc32_part_array := hdr.crc32_part_array
    partitions := parts }

/-- A device/image handed to the parsers: the byte stream plus the result of
the `BLKSSZGET` ioctl block-size query (`none` when the query raises and the
code falls back to 512). -/
structure Device where
  stream : ByteSource
  blocksize : Option Nat
deriving DecidableEq

/-- The block size a parser actually uses:
`try: ioctl(...) except: blocksize = 512`. -/
def devBlock (d : Device) : Nat := d.blocksize.getD 512

/-- The body of the `try` block of `GPTTable.__init__` (after the seek to 0):
decode the header, then the partitions, then assemble `GPTInfo`. -/
def gptDecodeBody (fp : ByteSource) (blocksize : Nat) :
    Except PyErr (GPTInfo × ByteSource) :=
  let fp0 := fp.seek 0
  match read_gpt_header fp0 blocksize with
  | .error e => .error e
  | .ok (hdr, fp1) =>
    match read_gpt_partitions fp1 hdr blocksize with
    | .error e => .error e
    | .ok (parts, fp2) => .ok (mkGptInfo blocksize hdr parts, fp2)

/-- `GPTTable.__init__` outcome: `GPTMissing` silent, other `GPTError`
prints `Error reading GPT!`, anything else propagates; `info` stays `None`
in every non-success case. -/
def gptCtorE (dev : Device) : Except PyErr (Vis GPTInfo) :=
  match gptDecodeBody dev.stream (devBlock dev) with
  | .ok (v, _) => .ok ⟨some v, none⟩
  | .error (.gptMissing _) => .ok ⟨none, none⟩
  | .error (.gptError _) => .ok ⟨none, some "Error reading GPT!"⟩
  | .error e => .error e

/-- The decoded disklabel header (namedtuple `DisklabelHeader` per
DISKLABEL_HEADER_FORMAT with the constant `size = 0x94` extra). -/
structure DisklabelHeader where
  signature1 : List Nat
  controller : List Nat
  disklabel : List Nat
  pack_id : List Nat
  sector_byte : Nat
  misc : List Nat
  signature2 : List Nat
  checksum : List Nat
  slices_total : Nat
  boot_size : Nat
  superblock_size : Nat
  size : Nat
deriving DecidableEq

/-- `DisklabelTable.read_disklabel_header`: seek to `1 * lba_size`, read the
148-byte header, append the constant `0x94` size, and require both magic
fields to equal `WEV\x82` (else `DisklabelMissing`). -/
def read_disklabel_header (fp : ByteSource) (lba_size : Nat) :
    Except PyErr (DisklabelHeader × ByteSource) :=
  let fp1 := fp.seek (1 * lba_size)
  let r := fp1.read 148
  let data := r.1
  if data.length ≠ 148 then .error .structError
  else
    let header : DisklabelHeader :=
      { signature1 := slice data 0 4
        controller := slice data 4 4
        disklabel := slice data 8 16
        pack_id := slice data 24 16
        sector_byte := leNat (slice data 40 4)
        misc := slice data 44 88
        signature2 := slice data 132 4
        checksum := slice data 136 2
        slices_total := leNat (slice data 138 2)
        boot_size := leNat (slice data 140 4)
        superblock_size := leNat (slice data 144 4)
        size := 0x94 }
    if header.signature1 ≠ [0x57, 0x45, 0x56, 0x82] ∨
        header.signature2 ≠ [0x57, 0x45, 0x56, 0x82] then
      .error (.disklabelMissing "Bad Disklabel signature")
    else .ok (header, r.2)

/-- A decoded disklabel slice entry (namedtuple `DisklabelPartition` with
the `index` and `type_str` extras). -/
structure DisklabelPartition where
  sectors_total : Nat
  first_sector : Nat
  filesystem_size : Nat
  type : Nat
  fragments : List Nat
  cylinders : List Nat
  index : Nat
  type_str : String
deriving DecidableEq

/-- DISKLABEL_PARTITION_TYPE lookup table of `partition.py`. -/
def DISKLABEL_PARTITION_TYPE : Nat → Option String := fun t =>
  match t with
  | 0x00 => some "Unused"
  | 0x01 => some "Swap"
  | 0x02 => some "V6"
  | 0x03 => some "V7"
  | 0x04 => some "SystemV"
  | 0x05 => some "4.1BSD"
  | 0x06 => some "Eighth edition"
  | 0x07 => some "4.2BSD fast file system (FFS)"
  | 0x08 => some "MSDOS (FAT variants)"
  | 0x09 => some "4.4BSD (LFS)"
  | 0x0A => some "Unknown"
  | 0x0B => some "OS/2 (HPFS)"
  | 0x0C => some "CD-ROM (ISO9660)"
  | 0x0D => some "Bootstrap"
  | 0x20 => some "NTFS"
  | 0x1B => some "ZFS"
  | _ => none

/-- The value built from one 16-byte disklabel slot (per
DISKLABEL_PARTITION_FORMAT `<LLLB1s2s`): `type_str` starts as `Unknown` and
is replaced only when the code is in the table. -/
def mkDlPartition (partstr : List Nat) (num : Nat) : DisklabelPartition :=
  { sectors_total := leNat (slice partstr 0 4)
    first_sector := leNat (slice partstr 4 4)
    filesystem_size := leNat (slice partstr 8 4)
    type := partstr.getD 12 0
    fragments := slice partstr 13 1
    cylinders := slice partstr 14 2
    index := num
    type_str := (DISKLABEL_PARTITION_TYPE (partstr.getD 12 0)).getD "Unknown" }

/-- The slot loop of `DisklabelTable.read_disklabel_partitions`: for each
slot seek to `lba_size + header.size + num * 0x10`, read 16 bytes
(`struct.error` if short), and keep slots with a non-zero type code. -/
def read_dl_entries (fp : ByteSource) (lba_size hsize : Nat) :
    Nat → Nat → Except PyErr (List DisklabelPartition × ByteSource)
  | 0, _ => .ok ([], fp)
  | count + 1, num =>
    let fp1 := fp.seek (lba_size + hsize + num * 0x10)
    let r := fp1.read 0x10
    let data := r.1
    if data.length ≠ 16 then .error .structError
    else
      let part := mkDlPartition data num
      match read_dl_entries r.2 lba_size hsize count (num + 1) with
      | .error e => .error e
      | .ok (ps, fp2) =>
        if part.type ≠ 0 then .ok (part :: ps, fp2) else .ok (ps, fp2)

/-- `DisklabelTable.read_disklabel_partitions` over `slices_total` slots. -/
def read_disklabel_partitions (fp : ByteSource) (hdr : DisklabelHeader)
    (lba_size : Nat) : Except PyErr (List DisklabelPartition × ByteSource) :=
  read_dl_entries fp lba_size hdr.size hdr.slices_total 0

/-- The `DisklabelInfo` namedtuple `(lba_size, header, partitions)`; the
reported `lba_size` is the literal `512` even though the seeks used the
queried block size. -/
structure DisklabelInfo where
  lba_size : Nat
  header : DisklabelHeader
  partitions : List DisklabelPartition
deriving DecidableEq

/-- The body of the `try` block of `DisklabelTable.__init__` (after the seek
to 0). -/
def dlDecodeBody (fp : ByteSource) (blocksize : Nat) :
    Except PyErr (DisklabelInfo × ByteSource) :=
  let fp0 := fp.seek 0
  match read_disklabel_header fp0 blocksize with
  | .error e => .error e
  | .ok (hdr, fp1) =>
    match read_disklabel_partitions fp1 hdr blocksize with
    | .error e => .error e
    | .ok (parts, fp2) =>
      .ok ({ lba_size := 512, header := hdr, partitions := parts }, fp2)

/-- `DisklabelTable.__init__` outcome: both `DisklabelMissing` and any other
`DisklabelError` are caught silently (no diagnostic at all); anything else
propagates. -/
def dlCtorE (dev : Device) : Except PyErr (Vis DisklabelInfo) :=
  match dlDecodeBody dev.stream (devBlock dev) with
  | .ok (v, _) => .ok ⟨some v, none⟩
  | .error (.disklabelMissing _) => .ok ⟨none, none⟩
  | .error (.disklabelError _) => .ok ⟨none, none⟩
  | .error e => .error e

/-- `MBRTable` constructed on a device: the MBR parser never queries the
block size, it only sees the stream. -/
def mbrCtorDev (d : Device) (fuel : Nat) : Except PyErr (Vis MBRInfo) :=
  mbrCtorE d.stream fuel

/-- `get_info`: construct the three parsers in sequence on the same device;
an exception that escapes one constructor aborts the run.  The `pprint`
calls between them are presentation (out of the decoding core) and are not
modelled. -/
def get_info (dev : Device) (fuel : Nat) :
    Except PyErr (Vis MBRInfo × Vis GPTInfo × Vis DisklabelInfo) :=
  match mbrCtorDev dev fuel with
  | .error e => .error e
  | .ok m =>
    match gptCtorE dev with
    | .error e => .error e
    | .ok g =>
      match dlCtorE dev with
      | .error e => .error e
      | .ok d => .ok (m, g, d)

/-! ## Specification-side descriptions of on-disk structures -/

/-- One link of an EBR chain as laid out on disk: the 16-byte logical
partition descriptor and the 16-byte next-EBR descriptor. -/
structure ChainNode where
  part : List Nat
  next : List Nat
deriving DecidableEq

/-- The relative LBA the code extracts from a next-EBR descriptor (it
re-decodes the descriptor as a partition entry and takes its `lba`
field). -/
def nextRel (n : ChainNode) : Nat := leNat (slice n.next 8 4)

/-- The 512-byte sector at byte offset `off` of `data` is a well-formed EBR
carrying partition descriptor `p`, next-EBR descriptor `nb` and the boot
signature `55 AA`. -/
def sectorOK (data : List Nat) (off : Nat) (p nb : List Nat) : Prop :=
  (slice data off 512).length = 512 ∧
    slice (slice data off 512) 446 16 = p ∧
    slice (slice data off 512) 462 16 = nb ∧
    slice (slice data off 512) 510 2 = [0x55, 0xAA]

instance (data : List Nat) (off : Nat) (p nb : List Nat) :
    Decidable (sectorOK data off p nb) := by
  unfold sectorOK; infer_instance

/-- `EbrChain data ext r ns`: starting at relative LBA `r` inside the
extended partition based at LBA `ext`, the bytes of `data` hold the EBR
chain `ns`, each link a valid EBR, every non-final link pointing to the
next one through a non-zero next-EBR descriptor with a non-zero type code,
and the final link terminated by the all-zero descriptor. -/
inductive EbrChain (data : List Nat) (ext : Nat) : Nat → List ChainNode → Prop
  | last (r : Nat) (node : ChainNode)
      (hs : sectorOK data ((ext + r) * 512) node.part node.next)
      (hz : node.next = zeros16) : EbrChain data ext r [node]
  | cons (r : Nat) (node : ChainNode) (rest : List ChainNode)
      (hs : sectorOK data ((ext + r) * 512) node.part node.next)
      (hnz : node.next ≠ zeros16) (hty : node.next.getD 4 0 ≠ 0)
      (htail : EbrChain data ext (nextRel node) rest) :
      EbrChain data ext r (node :: rest)

/-- The logical entries the EBR walk produces for a chain, one per link,
numbered consecutively from `num`. -/
def logicalEntries (num : Nat) : List ChainNode → List (Option MBRPartition)
  | [] => []
  | node :: rest => read_mbr_partition node.part num :: logicalEntries (num + 1) rest

/-- The relative LBAs the walk visits for a chain starting at `r`. -/
def chainRels (r : Nat) : List ChainNode → List Nat
  | [] => []
  | node :: rest => r :: chainRels (nextRel node) rest

/-! ## Helper lemmas -/

theorem read_mbr_partition_of_type_ne (bs : List Nat) (n : Nat)
    (h : bs.getD 4 0 ≠ 0) :
    read_mbr_partition bs n = some (mkMbrPartition bs n) := by
  unfold read_mbr_partition
  rw [if_pos h]

theorem read_mbr_partition_of_type_zero (bs : List Nat) (n : Nat)
    (h : bs.getD 4 0 = 0) : read_mbr_partition bs n = none := by
  unfold read_mbr_partition
  rw [if_neg (not_not_intro h)]

/-- Walking a well-formed, zero-terminated EBR chain succeeds, produces
exactly one entry per link (numbered from `num`), and seeks exactly to
`(ext + rel) * 512` for the chain's successive relative LBAs. -/
theorem read_ebr_chain {data : List Nat} {ext : Nat} :
    ∀ {r : Nat} {ns : List ChainNode}, EbrChain data ext r ns →
    ∀ (s : ByteSource) (num fuel : Nat), s.data = data → ns.length ≤ fuel →
    ∃ pos, read_ebr_partition s ext r num fuel =
      .ok (logicalEntries num ns,
        ⟨data, pos, s.seekLog ++ (chainRels r ns).map (fun rr => (ext + rr) * 512)⟩) := by
  intro r ns hchain
  induction hchain with
  | last r node hs hz =>
    intro s num fuel hdata hfuel
    obtain ⟨f, rfl⟩ : ∃ f, fuel = f + 1 := by
      cases fuel
      · simp at hfuel
      · exact ⟨_, rfl⟩
    obtain ⟨hlen, hp, hn, hsig⟩ := hs
    refine ⟨(ext + r) * 512 + 512, ?_⟩
    simp only [read_ebr_partition, ByteSource.seek, ByteSource.read]
    rw [hdata, hp, hn, hsig, hlen, hz]
    simp [logicalEntries, chainRels]
  | cons r node rest hs hnz hty htail ih =>
    intro s num fuel hdata hfuel
    obtain ⟨f, rfl⟩ : ∃ f, fuel = f + 1 := by
      cases fuel
      · simp at hfuel
      · exact ⟨_, rfl⟩
    obtain ⟨hlen, hp, hn, hsig⟩ := hs
    have hfuel2 : rest.length ≤ f := by
      simp only [List.length_cons] at hfuel
      omega
    obtain ⟨pos2, hrec⟩ :=
      ih ⟨data, (ext + r) * 512 + 512, s.seekLog ++ [(ext + r) * 512]⟩ (num + 1) f rfl hfuel2
    refine ⟨pos2, ?_⟩
    simp only [read_ebr_partition, ByteSource.seek, ByteSource.read]
    rw [hdata, hp, hn, hsig, hlen]
    rw [read_mbr_partition_of_type_ne node.next 0 hty]
    have hrec2 : read_ebr_partition
        ⟨data, (ext + r) * 512 + 512, s.seekLog ++ [(ext + r) * 512]⟩ ext
        ((mkMbrPartition node.next 0).lba) (num + 1) f =
        .ok (logicalEntries (num + 1) rest,
          ⟨data, pos2, (s.seekLog ++ [(ext + r) * 512]) ++
            (chainRels (nextRel node) rest).map (fun rr => (ext + rr) * 512)⟩) := hrec
    simp [hnz, hrec2, logicalEntries, chainRels]

/-- One step of the EBR walk across a valid non-terminal EBR: read the
sector, emit the partition entry, and recurse at the relative LBA stored in
the next-EBR descriptor. -/
theorem read_ebr_step (data : List Nat) (ext r : Nat) (p nb : List Nat)
    (hs : sectorOK data ((ext + r) * 512) p nb) (hnz : nb ≠ zeros16)
    (hty : nb.getD 4 0 ≠ 0) (s : ByteSource) (num f : Nat) (hdata : s.data = data) :
    read_ebr_partition s ext r num (f + 1) =
      match read_ebr_partition ⟨data, (ext + r) * 512 + 512, s.seekLog ++ [(ext + r) * 512]⟩
          ext (leNat (slice nb 8 4)) (num + 1) f with
      | .error e => .error e
      | .ok (more, fp3) => .ok ([read_mbr_partition p num] ++ more, fp3) := by
  obtain ⟨hlen, hp, hn, hsig⟩ := hs
  simp only [read_ebr_partition, ByteSource.seek, ByteSource.read]
  rw [hdata, hp, hn, hsig, hlen]
  rw [read_mbr_partition_of_type_ne nb 0 hty]
  simp [hnz, mkMbrPartition]

/-! ## Concrete disk images used in the closed statements -/

/-- Little-endian bytes of a 32-bit value. -/
def le4 (n : Nat) : List Nat :=
  [n % 256, n / 256 % 256, n / 65536 % 256, n / 16777216 % 256]

/-- Little-endian bytes of a 64-bit value. -/
def le8 (n : Nat) : List Nat :=
  le4 (n % 4294967296) ++ le4 (n / 4294967296)

/-- A 16-byte MBR partition slot with zero CHS fields. -/
def mbrSlot (status ty lba sectors : Nat) : List Nat :=
  [status, 0, 0, 0, ty, 0, 0, 0] ++ le4 lba ++ le4 sectors

/-- A 512-byte EBR sector: padding, partition descriptor, next-EBR
descriptor, reserved, boot signature. -/
def ebrSector (p nb : List Nat) : List Nat :=
  List.replicate 446 0 ++ p ++ nb ++ List.replicate 32 0 ++ [0x55, 0xAA]

/-- A 512-byte MBR sector with the four partition slots and the boot
signature. -/
def mbrSector (s1 s2 s3 s4 : List Nat) : List Nat :=
  List.replicate 446 0 ++ s1 ++ s2 ++ s3 ++ s4 ++ [0x55, 0xAA]

/-- Logical-partition descriptor used by the cyclic chain image. -/
def cycPart : List Nat := mbrSlot 0 0x83 2 10

/-- Next-EBR descriptor pointing at relative LBA `rel`. -/
def cycNext (rel : Nat) : List Nat := mbrSlot 0 0x05 rel 0

/-- A disk image whose extended partition (base LBA 1) holds a three-node
EBR chain in which node 3's next-EBR descriptor points back at node 1
(relative LBA 0): the crafted cycle of the specification. -/
def cycData : List Nat :=
  mbrSector (mbrSlot 0 0x05 1 100) zeros16 zeros16 zeros16 ++
    ebrSector cycPart (cycNext 1) ++ ebrSector cycPart (cycNext 2) ++
    ebrSector cycPart (cycNext 0)

/-- The MBR header decoded from `cycData`. -/
def cycHdr : MBRHeader :=
  { drive_signature := [0, 0, 0, 0]
    partition1 := mbrSlot 0 0x05 1 100
    partition2 := zeros16
    partition3 := zeros16
    partition4 := zeros16
    signature := [0x55, 0xAA] }

/-- On the cyclic image the EBR walk keeps revisiting relative LBAs 0, 1, 2
and exhausts any recursion budget. -/
theorem cyc_aux : ∀ (fuel : Nat) (s : ByteSource) (r num : Nat), s.data = cycData →
    r = 0 ∨ r = 1 ∨ r = 2 →
    read_ebr_partition s 1 r num fuel = .error .recursionError := by
  intro fuel
  induction fuel with
  | zero =>
    intro s r num _ _
    rfl
  | succ f ih =>
    intro s r num hdata hr
    rcases hr with rfl | rfl | rfl
    · rw [read_ebr_step cycData 1 0 cycPart (cycNext 1) (by decide) (by decide)
        (by decide) s num f hdata]
      rw [show leNat (slice (cycNext 1) 8 4) = 1 from by decide]
      rw [ih ⟨cycData, (1 + 0) * 512 + 512, s.seekLog ++ [(1 + 0) * 512]⟩ 1 (num + 1)
        rfl (Or.inr (Or.inl rfl))]
    · rw [read_ebr_step cycData 1 1 cycPart (cycNext 2) (by decide) (by decide)
        (by decide) s num f hdata]
      rw [show leNat (slice (cycNext 2) 8 4) = 2 from by decide]
      rw [ih ⟨cycData, (1 + 1) * 512 + 512, s.seekLog ++ [(1 + 1) * 512]⟩ 2 (num + 1)
        rfl (Or.inr (Or.inr rfl))]
    · rw [read_ebr_step cycData 1 2 cycPart (cycNext 0) (by decide) (by decide)
        (by decide) s num f hdata]
      rw [show leNat (slice (cycNext 0) 8 4) = 0 from by decide]
      rw [ih ⟨cycData, (1 + 2) * 512 + 512, s.seekLog ++ [(1 + 2) * 512]⟩ 0 (num + 1)
        rfl (Or.inl rfl)]

/-- C1 (amended): on the cyclic three-node EBR chain the decoder never
detects the cycle: for every recursion budget, both the full MBR decode and
the EBR walk itself abort by exhausting the budget (Python
`RecursionError`, which is not an `MBRError` and is not caught by the
constructor); no `EBR cycle detected` outcome exists in the code. -/
theorem c1_no_cycle_detection : ∀ fuel : Nat,
    mbrDecodeBody ⟨cycData, 0, []⟩ fuel = .error .recursionError ∧
    ∀ num, read_ebr_partition ⟨cycData, 0, []⟩ 1 0 num fuel = .error .recursionError := by
  intro fuel
  constructor
  · have hh : read_mbr_header (ByteSource.seek ⟨cycData, 0, []⟩ 0) =
        .ok (cycHdr, ⟨cycData, 512, [0]⟩) := rfl
    simp only [mbrDecodeBody]
    rw [hh]
    simp only [read_mbr_partitions]
    rw [show (mbrPrimaries cycHdr).find? (fun p => decide (p.type ∈ MBR_EXTENDED_TYPE)) =
        some (mkMbrPartition (mbrSlot 0 0x05 1 100) 1) from rfl]
    dsimp only
    rw [show (mkMbrPartition (mbrSlot 0 0x05 1 100) 1).lba = 1 from rfl]
    rw [cyc_aux fuel ⟨cycData, 512, [0]⟩ 0 5 rfl (Or.inl rfl)]
  · intro num
    exact cyc_aux fuel ⟨cycData, 0, []⟩ 0 num rfl (Or.inl rfl)

/-- C1 counterexample: at a concrete recursion budget the decode of the
cyclic chain ends in `RecursionError`, which is not the claimed
`MBRError("EBR cycle detected")`. -/
theorem c1_counterexample :
    mbrDecodeBody ⟨cycData, 0, []⟩ 4 = .error .recursionError ∧
    PyErr.recursionError ≠ PyErr.mbrError "EBR cycle detected" := by
  exact ⟨by decide, by decide⟩

theorem logicalEntries_length : ∀ (ns : List ChainNode) (num : Nat),
    (logicalEntries num ns).length = ns.length := by
  intro ns
  induction ns with
  | nil => intro num; rfl
  | cons node rest ih => intro num; simp [logicalEntries, ih]

theorem logicalEntries_index : ∀ (ns : List ChainNode) (num : Nat),
    (∀ node ∈ ns, node.part.getD 4 0 ≠ 0) →
    ∀ i, i < ns.length → ∃ e, (logicalEntries num ns).getD i none = some e ∧
      e.index = num + i := by
  intro ns
  induction ns with
  | nil => intro num _ i hi; simp at hi
  | cons node rest ih =>
    intro num hval i hi
    cases i with
    | zero =>
      refine ⟨mkMbrPartition node.part num, ?_, rfl⟩
      simp [logicalEntries,
        read_mbr_partition_of_type_ne node.part num (hval node (by simp))]
    | succ j =>
      have hj : j < rest.length := by
        simp only [List.length_cons] at hi
        omega
      obtain ⟨e, he, hidx⟩ := ih (num + 1) (fun n hn => hval n (by simp [hn])) j hj
      refine ⟨e, ?_, ?_⟩
      · simpa [logicalEntries] using he
      · omega

/-- C2 (amended): when the primary scan finds an extended partition and the
image holds a well-formed, zero-terminated chain of `N ≥ 1` logical nodes
with non-zero type codes, decoding appends exactly `N` logical entries,
indexed `5 .. 4+N` in chain order, after the primary entries, seeking at
each step to `(extended_base_lba + relative_lba) * 512` with `relative_lba`
starting at 0 and then taken from the next-EBR descriptor's LBA field; for
`N = 0` (the first EBR is the all-zero terminator) the walk terminates but
contributes one placeholder `none` element (Python appends the `None` that
`read_mbr_partition` returns for the zero type code) instead of nothing. -/
theorem c2_chain_decode :
    (∀ (s : ByteSource) (hdr : MBRHeader) (ep : MBRPartition) (ns : List ChainNode)
      (fuel : Nat),
      (mbrPrimaries hdr).find? (fun p => decide (p.type ∈ MBR_EXTENDED_TYPE)) = some ep →
      EbrChain s.data ep.lba 0 ns →
      (∀ node ∈ ns, node.part.getD 4 0 ≠ 0) →
      ns.length ≤ fuel →
      ∃ st, read_mbr_partitions s hdr fuel =
          .ok ((mbrPrimaries hdr).map some ++ logicalEntries 5 ns, st) ∧
        st.seekLog = s.seekLog ++ (chainRels 0 ns).map (fun rr => (ep.lba + rr) * 512) ∧
        (logicalEntries 5 ns).length = ns.length ∧
        (∀ i, i < ns.length → ∃ e, (logicalEntries 5 ns).getD i none = some e ∧
          e.index = 5 + i)) ∧
    (∀ (s : ByteSource) (ext num fuel : Nat) (node : ChainNode),
      EbrChain s.data ext 0 [node] → node.part.getD 4 0 = 0 → 1 ≤ fuel →
      ∃ st, read_ebr_partition s ext 0 num fuel = .ok ([none], st)) := by
  constructor
  · intro s hdr ep ns fuel hfind hchain hval hfuel
    obtain ⟨pos, heq⟩ := read_ebr_chain hchain s 5 fuel rfl hfuel
    refine ⟨⟨s.data, pos, s.seekLog ++ (chainRels 0 ns).map (fun rr => (ep.lba + rr) * 512)⟩,
      ?_, rfl, logicalEntries_length ns 5, logicalEntries_index ns 5 hval⟩
    simp only [read_mbr_partitions]
    rw [hfind]
    dsimp only
    rw [heq]
  · intro s ext num fuel node hchain hty hfuel
    obtain ⟨f, rfl⟩ : ∃ f, fuel = f + 1 := ⟨fuel - 1, by omega⟩
    obtain ⟨pos, heq⟩ := read_ebr_chain hchain s num (f + 1) rfl (by simp)
    refine ⟨⟨s.data, pos,
      s.seekLog ++ (chainRels 0 [node]).map (fun rr => (ext + rr) * 512)⟩, ?_⟩
    rw [heq]
    simp [logicalEntries, read_mbr_partition_of_type_zero node.part num hty]

/-- An image whose extended partition holds a zero-length chain: the first
EBR is the all-zero terminator (zero partition descriptor, zero next-EBR
descriptor, valid boot signature). -/
def n0Data : List Nat :=
  mbrSector (mbrSlot 0 0x05 1 8) zeros16 zeros16 zeros16 ++ ebrSector zeros16 zeros16

/-- C2 counterexample: for the `N = 0` chain the decode terminates but the
partition list is the primary entry followed by a `None` placeholder, not
"exactly 0 logical entries". -/
theorem c2_counterexample :
    (mbrDecodeBody ⟨n0Data, 0, []⟩ 4).map (fun x => x.1.partitions) =
      .ok [some (mkMbrPartition (mbrSlot 0 0x05 1 8) 1), none] ∧
    (mbrDecodeBody ⟨n0Data, 0, []⟩ 4).map (fun x => x.1.partitions) ≠
      .ok [some (mkMbrPartition (mbrSlot 0 0x05 1 8) 1)] := by
  exact ⟨by decide, by decide⟩

/-- Primary slot 1 of the two-node witness image: active, extended (LBA
type), based at LBA 1. -/
def w2Slot1 : List Nat := mbrSlot 0x80 0x0F 1 64

/-- Logical partition descriptor of node 1. -/
def w2P0 : List Nat := mbrSlot 0 0x83 2 3

/-- Next-EBR descriptor of node 1, pointing at relative LBA 1. -/
def w2N0 : List Nat := mbrSlot 0 0x05 1 4

/-- Logical partition descriptor of node 2 (terminal node). -/
def w2P1 : List Nat := mbrSlot 0 0x07 2 5

/-- A disk image with one extended primary and a two-node EBR chain. -/
def w2Data : List Nat :=
  mbrSector w2Slot1 zeros16 zeros16 zeros16 ++ ebrSector w2P0 w2N0 ++
    ebrSector w2P1 zeros16

/-- The MBR header of `w2Data`. -/
def w2Hdr : MBRHeader :=
  ⟨[0, 0, 0, 0], w2Slot1, zeros16, zeros16, zeros16, [0x55, 0xAA]⟩

/-- The chain of `w2Data` as `ChainNode`s. -/
def w2Nodes : List ChainNode := [⟨w2P0, w2N0⟩, ⟨w2P1, zeros16⟩]

theorem c2_chain_decode_witness :
    (∃ st, read_mbr_partitions ⟨w2Data, 0, []⟩ w2Hdr 8 =
        .ok ((mbrPrimaries w2Hdr).map some ++ logicalEntries 5 w2Nodes, st) ∧
      st.seekLog = ([] : List Nat) ++ (chainRels 0 w2Nodes).map
        (fun rr => ((mkMbrPartition w2Slot1 1).lba + rr) * 512) ∧
      (logicalEntries 5 w2Nodes).length = w2Nodes.length ∧
      (∀ i, i < w2Nodes.length → ∃ e, (logicalEntries 5 w2Nodes).getD i none = some e ∧
        e.index = 5 + i)) ∧
    (∃ st, read_ebr_partition ⟨n0Data, 0, []⟩ 1 0 5 4 = .ok ([none], st)) := by
  constructor
  · exact c2_chain_decode.1 ⟨w2Data, 0, []⟩ w2Hdr (mkMbrPartition w2Slot1 1) w2Nodes 8
      (by decide)
      (EbrChain.cons 0 ⟨w2P0, w2N0⟩ [⟨w2P1, zeros16⟩] (by decide) (by decide) (by decide)
        (EbrChain.last (nextRel ⟨w2P0, w2N0⟩) ⟨w2P1, zeros16⟩ (by decide) (by decide)))
      (by decide) (by decide)
  · exact c2_chain_decode.2 ⟨n0Data, 0, []⟩ 1 5 4 ⟨zeros16, zeros16⟩
      (EbrChain.last 0 ⟨zeros16, zeros16⟩ (by decide) (by decide)) (by decide) (by decide)

/-- An image whose only non-empty primary slot is slot 4 (type 0x83), with a
valid boot signature. -/
def c3Data : List Nat :=
  mbrSector zeros16 zeros16 zeros16 (mbrSlot 0 0x83 2048 4096)

/-- C3: the loop `for i in range(1, 4)` decodes slots 1, 2, 3 only, so an
image whose only populated slot is slot 4 decodes to an empty partition
list even though the header carries the slot and its type code is
non-zero. -/
theorem c3_slot4_dropped :
    (mbrDecodeBody ⟨c3Data, 0, []⟩ 4).map (fun x => x.1.partitions) = .ok [] ∧
    (mbrDecodeBody ⟨c3Data, 0, []⟩ 4).map (fun x => x.1.header.partition4) =
      .ok (mbrSlot 0 0x83 2048 4096) ∧
    (mbrSlot 0 0x83 2048 4096).getD 4 0 ≠ 0 := by
  exact ⟨by decide, by decide, by decide⟩

/-- An image with one extended primary (base LBA 1) and a one-node EBR
chain, entirely valid. -/
def c4Data : List Nat :=
  mbrSector (mbrSlot 0 0x05 1 8) zeros16 zeros16 zeros16 ++
    ebrSector (mbrSlot 0 0x83 2 3) zeros16

/-- A kilobyte of zero bytes: a different stream bound to the module-global `fp`. -/
def c4Junk : List Nat := List.replicate 1024 0

/-- C4: the EBR read targets the module-global `fp`, not the constructed
handle.  With the same constructed handle (holding a fully valid extended
chain) the outcome flips from success to `Bad EBR signature` when the
global stream holds other bytes, and to `NameError` when the global name is
unbound; only the aliased run (global `fp` being the same object) decodes
the chain. -/
theorem c4_global_fp_dependence :
    mbrDecodeBodyG ⟨c4Data, 0, []⟩ (some ⟨c4Junk, 0, []⟩) 4 =
      .error (.mbrError "Bad EBR signature") ∧
    mbrDecodeBodyG ⟨c4Data, 0, []⟩ none 4 = .error .nameError ∧
    (mbrDecodeBody ⟨c4Data, 0, []⟩ 4).map (fun x => x.1.partitions) =
      .ok [some (mkMbrPartition (mbrSlot 0 0x05 1 8) 1),
        some (mkMbrPartition (mbrSlot 0 0x83 2 3) 5)] := by
  exact ⟨by decide, by decide, by decide⟩

/-- The EFI System partition type GUID in on-disk (bytes_le) order. -/
def efiSystemGuidLE : List Nat :=
  [0x28, 0x73, 0x2A, 0xC1, 0x1F, 0xF8, 0xD2, 0x11,
   0xBA, 0x4B, 0x00, 0xA0, 0xC9, 0x3E, 0xC9, 0x3B]

/-- The 72-byte name buffer holding UTF-16LE `EFI System` followed by null
padding. -/
def efiNameBuf : List Nat :=
  [0x45, 0, 0x46, 0, 0x49, 0, 0x20, 0, 0x53, 0,
   0x79, 0, 0x73, 0, 0x74, 0, 0x65, 0, 0x6D, 0] ++ List.replicate 52 0

/-- A populated 128-byte GPT entry whose name buffer is `EFI System` plus
null padding. -/
def c5Block : List Nat :=
  efiSystemGuidLE ++ List.replicate 16 1 ++ le8 2048 ++ le8 4096 ++ le8 0 ++ efiNameBuf

/-- A 72-byte name buffer holding UTF-16LE `A0B` (with the digit zero)
followed by null padding. -/
def zeroDigitNameBuf : List Nat :=
  [0x41, 0, 0x30, 0, 0x42, 0] ++ List.replicate 66 0

/-- A populated 128-byte GPT entry whose name contains the digit zero. -/
def c5Block2 : List Nat :=
  efiSystemGuidLE ++ List.replicate 16 1 ++ le8 2048 ++ le8 4096 ++ le8 0 ++
    zeroDigitNameBuf

/-- C5: under the Python-3 branch (`split_literal = "0"`) the decoded name
is split at the digit zero, not at the NUL terminator: the `EFI System`
buffer decodes to `EFI System` followed by 26 retained NUL characters (so
not the claimed exact string), and a name containing a digit zero is
truncated there instead. -/
theorem c5_name_keeps_nulls :
    (gptEntryMake c5Block 1).map (fun p => p.name) =
      .ok ("EFI System" ++ String.mk (List.replicate 26 (Char.ofNat 0))) ∧
    (gptEntryMake c5Block 1).map (fun p => p.name) ≠ .ok "EFI System" ∧
    (gptEntryMake c5Block2 1).map (fun p => p.name) = .ok "A" := by
  exact ⟨by decide, by decide, by decide⟩

/-- C6: for a GPT header block whose signature is `EFI PART`, decoding
rejects with the `Bad GPT revision` GPT error (a `Corrupt`, not the Absent
`GPTMissing`) exactly on revision `major + minor/10 < 1.0` — the rejection
happens regardless of the other fields — and any header with revision at
least 1.0 (in particular exactly 1.0) and a header size of at least 92 is
accepted. -/
theorem c6_revision_check (s : ByteSource) (bs major minor hsize : Nat)
    (hlen : (slice s.data (1 * bs) 92).length = 92)
    (hsig : slice (slice s.data (1 * bs) 92) 0 8 =
      [0x45, 0x46, 0x49, 0x20, 0x50, 0x41, 0x52, 0x54])
    (hmin : minor = leNat (slice (slice s.data (1 * bs) 92) 8 2))
    (hmaj : major = leNat (slice (slice s.data (1 * bs) 92) 10 2))
    (hhs : hsize = leNat (slice (slice s.data (1 * bs) 92) 12 4)) :
    ((major : ℚ) + (minor : ℚ) / 10 < 1 →
      read_gpt_header s bs = .error (.gptError
        ("Bad GPT revision: " ++ toString major ++ "." ++ toString minor))) ∧
    (1 ≤ (major : ℚ) + (minor : ℚ) / 10 → 92 ≤ hsize →
      ∃ hdr st, read_gpt_header s bs = .ok (hdr, st) ∧
        hdr.revision_major = major ∧ hdr.revision_minor = minor) := by
  have hb : ((major : ℚ) + (minor : ℚ) / 10 < 1) ↔ (10 * major + minor < 10) := by
    constructor
    · intro h
      by_contra hc
      push_neg at hc
      have h2 : (10 : ℚ) ≤ 10 * (major : ℚ) + (minor : ℚ) := by exact_mod_cast hc
      linarith
    · intro h
      have h2 : 10 * (major : ℚ) + (minor : ℚ) < 10 := by exact_mod_cast h
      linarith
  constructor
  · intro hlt
    have hnat := hb.mp hlt
    simp only [read_gpt_header, ByteSource.seek, ByteSource.read]
    rw [hlen, hsig, ← hmin, ← hmaj]
    rw [if_neg (by decide : ¬(92 : Nat) ≠ 92)]
    rw [if_neg (by decide :
      ¬[0x45, 0x46, 0x49, 0x20, 0x50, 0x41, 0x52, 0x54] ≠
        [0x45, 0x46, 0x49, 0x20, 0x50, 0x41, 0x52, 0x54])]
    rw [if_pos hnat]
  · intro hge hhsize
    have hnat : ¬(10 * major + minor < 10) := fun hn => (not_lt.mpr hge) (hb.mpr hn)
    simp only [read_gpt_header, ByteSource.seek, ByteSource.read]
    rw [hlen, hsig, ← hmin, ← hmaj, ← hhs]
    rw [if_neg (by decide : ¬(92 : Nat) ≠ 92)]
    rw [if_neg (by decide :
      ¬[0x45, 0x46, 0x49, 0x20, 0x50, 0x41, 0x52, 0x54] ≠
        [0x45, 0x46, 0x49, 0x20, 0x50, 0x41, 0x52, 0x54])]
    rw [if_neg hnat]
    rw [if_neg (not_lt.mpr hhsize)]
    exact ⟨_, _, rfl, rfl, rfl⟩

/-- A valid revision-1.0 GPT header block, preceded by a blank protective
sector. -/
def c6Header92 : List Nat :=
  [0x45, 0x46, 0x49, 0x20, 0x50, 0x41, 0x52, 0x54] ++ [0, 0] ++ [1, 0] ++ le4 92 ++
    le4 0 ++ [0, 0, 0, 0] ++ le8 1 ++ le8 0 ++ le8 34 ++ le8 1000 ++
    List.replicate 16 0x11 ++ le8 2 ++ le4 0 ++ le4 128 ++ le4 0

/-- Image carrying `c6Header92` at LBA 1 (512-byte blocks). -/
def c6Data : List Nat := List.replicate 512 0 ++ c6Header92

theorem c6_revision_check_witness :
    ∃ hdr st, read_gpt_header ⟨c6Data, 0, []⟩ 512 = .ok (hdr, st) ∧
      hdr.revision_major = 1 ∧ hdr.revision_minor = 0 := by
  exact (c6_revision_check ⟨c6Data, 0, []⟩ 512 1 0 92 (by decide) (by decide) (by decide)
    (by decide) (by decide)).2 (by norm_num) (by norm_num)

/-- Concatenation of the per-slot byte blocks of a GPT entry array. -/
def flat : List (List Nat) → List Nat
  | [] => []
  | b :: r => b ++ flat r

/-- The entries the GPT loop produces from the per-slot blocks: slots whose
type GUID bytes are all zero are skipped, the others yield an entry with
1-based index; slot `j` (0-based) of the list corresponds to index
`i + j + 1`. -/
def gptEntriesSpec (i : Nat) : List (List Nat) → List GPTPartition
  | [] => []
  | b :: rest =>
    if slice b 0 16 = zeros16 then gptEntriesSpec (i + 1) rest
    else
      match decode_utf16 (slice b 56 72) with
      | .ok nm => gptEntryVal b (i + 1) nm :: gptEntriesSpec (i + 1) rest
      | .error _ => gptEntriesSpec (i + 1) rest

/-- The 1-based indices of the populated (non-zero type GUID) slots. -/
def populatedIdxs (i : Nat) : List (List Nat) → List Nat
  | [] => []
  | b :: rest =>
    if slice b 0 16 = zeros16 then populatedIdxs (i + 1) rest
    else (i + 1) :: populatedIdxs (i + 1) rest

/-- The 72-byte name field of a block decodes without a
`UnicodeDecodeError`. -/
def entryNameOk (b : List Nat) : Bool :=
  match decode_utf16 (slice b 56 72) with
  | .ok _ => true
  | .error _ => false

theorem flat_length : ∀ (blocks : List (List Nat)),
    (∀ b ∈ blocks, b.length = 128) → (flat blocks).length = 128 * blocks.length := by
  intro blocks
  induction blocks with
  | nil => intro _; rfl
  | cons b rest ih =>
    intro h
    have hb := h b (by simp)
    have hr := ih (fun x hx => h x (by simp [hx]))
    simp only [flat, List.length_append, List.length_cons, hb, hr]
    ring

theorem slice_add (d : List Nat) (p m k : Nat) :
    slice d p (m + k) = slice d p m ++ slice d (p + m) k := by
  unfold slice
  rw [List.take_add, List.drop_drop]

/-- The GPT entry loop over `blocks.length` slots of exactly 128 bytes each
returns precisely the populated entries (zero-GUID slots skipped, scan
continuing, 1-based indices preserved). -/
theorem read_gpt_entries_spec : ∀ (blocks : List (List Nat)) (s : ByteSource) (i : Nat),
    (∀ b ∈ blocks, b.length = 128) →
    slice s.data s.pos (128 * blocks.length) = flat blocks →
    (∀ b ∈ blocks, entryNameOk b = true) →
    ∃ st, read_gpt_entries s 128 blocks.length i = .ok (gptEntriesSpec i blocks, st) := by
  intro blocks
  induction blocks with
  | nil =>
    intro s i _ _ _
    exact ⟨s, rfl⟩
  | cons b rest ih =>
    intro s i hlen hdata hname
    have hb128 : b.length = 128 := hlen b (by simp)
    have htot : (slice s.data s.pos (128 * (b :: rest).length)).length =
        (flat (b :: rest)).length := by rw [hdata]
    have hflatlen : (flat (b :: rest)).length = 128 * (b :: rest).length :=
      flat_length _ hlen
    have h1 : (slice s.data s.pos (128 * (b :: rest).length)).length =
        min (128 * (b :: rest).length) (s.data.length - s.pos) := by
      unfold slice
      rw [List.length_take, List.length_drop]
    have h2 : min (128 * (b :: rest).length) (s.data.length - s.pos) =
        128 * (b :: rest).length := by
      rw [← h1, htot, hflatlen]
    have havail : 128 * (b :: rest).length ≤ s.data.length - s.pos :=
      min_eq_left_iff.mp h2
    have h128avail : 128 ≤ s.data.length - s.pos := by
      refine le_trans ?_ havail
      simp only [List.length_cons]
      omega
    have hsplit : slice s.data s.pos 128 ++ slice s.data (s.pos + 128) (128 * rest.length) =
        b ++ flat rest := by
      rw [← slice_add]
      rw [show (128 + 128 * rest.length) = 128 * (b :: rest).length from by
        simp only [List.length_cons]; ring]
      exact hdata
    have hlen1 : (slice s.data s.pos 128).length = b.length := by
      unfold slice
      rw [List.length_take, List.length_drop, hb128]
      exact Nat.min_eq_left h128avail
    obtain ⟨hb, hrest⟩ := List.append_inj hsplit hlen1
    have hrecall := ih ⟨s.data, s.pos + 128, s.seekLog⟩ (i + 1)
      (fun x hx => hlen x (by simp [hx])) hrest
      (fun x hx => hname x (by simp [hx]))
    obtain ⟨st, hst⟩ := hrecall
    refine ⟨st, ?_⟩
    rw [List.length_cons]
    simp only [read_gpt_entries, ByteSource.read]
    rw [hb, hb128]
    rw [if_neg (by decide : ¬(128 : Nat) < 128)]
    rw [if_neg (by decide : ¬(128 : Nat) ≠ 128)]
    by_cases hz : slice b 0 16 = zeros16
    · rw [if_pos hz, hst]
      simp [gptEntriesSpec, hz]
    · rw [if_neg hz]
      have hno := hname b (by simp)
      unfold entryNameOk at hno
      cases hdec : decode_utf16 (slice b 56 72) with
      | error e =>
        rw [hdec] at hno
        simp at hno
      | ok nm =>
        have hmk : gptEntryMake b (i + 1) = .ok (gptEntryVal b (i + 1) nm) := by
          unfold gptEntryMake
          rw [hdec]
        rw [hmk]
        dsimp only
        rw [hst]
        simp [gptEntriesSpec, hz, hdec]

theorem gptEntriesSpec_map_index : ∀ (blocks : List (List Nat)) (i : Nat),
    (∀ b ∈ blocks, entryNameOk b = true) →
    (gptEntriesSpec i blocks).map (fun p => p.index) = populatedIdxs i blocks := by
  intro blocks
  induction blocks with
  | nil => intro i _; rfl
  | cons b rest ih =>
    intro i hname
    have htail := ih (i + 1) (fun x hx => hname x (by simp [hx]))
    by_cases hz : slice b 0 16 = zeros16
    · simp [gptEntriesSpec, populatedIdxs, hz, htail]
    · have hno := hname b (by simp)
      unfold entryNameOk at hno
      cases hdec : decode_utf16 (slice b 56 72) with
      | error e =>
        rw [hdec] at hno
        simp at hno
      | ok nm =>
        simp [gptEntriesSpec, populatedIdxs, hz, hdec, htail, gptEntryVal]

theorem populatedIdxs_mem : ∀ (blocks : List (List Nat)) (i x : Nat),
    x ∈ populatedIdxs i blocks ↔
      ∃ j, j < blocks.length ∧ x = i + j + 1 ∧ slice (blocks.getD j []) 0 16 ≠ zeros16 := by
  intro blocks
  induction blocks with
  | nil => intro i x; simp [populatedIdxs]
  | cons b rest ih =>
    intro i x
    by_cases hz : slice b 0 16 = zeros16
    · rw [show populatedIdxs i (b :: rest) = populatedIdxs (i + 1) rest from by
        simp [populatedIdxs, hz]]
      rw [ih (i + 1) x]
      constructor
      · rintro ⟨j, hj, rfl, hne⟩
        exact ⟨j + 1, by simpa using Nat.succ_lt_succ hj, by omega, by simpa using hne⟩
      · rintro ⟨j, hj, rfl, hne⟩
        cases j with
        | zero => exact absurd hz (by simpa using hne)
        | succ j2 =>
          refine ⟨j2, ?_, by omega, by simpa using hne⟩
          simp only [List.length_cons] at hj
          omega
    · rw [show populatedIdxs i (b :: rest) = (i + 1) :: populatedIdxs (i + 1) rest from by
        simp [populatedIdxs, hz]]
      constructor
      · intro hx
        rcases List.mem_cons.mp hx with rfl | hx2
        · exact ⟨0, by simp, by omega, by simpa using hz⟩
        · obtain ⟨j, hj, rfl, hne⟩ := (ih (i + 1) x).mp hx2
          exact ⟨j + 1, by simpa using Nat.succ_lt_succ hj, by omega, by simpa using hne⟩
      · rintro ⟨j, hj, rfl, hne⟩
        cases j with
        | zero => simp
        | succ j2 =>
          refine List.mem_cons.mpr (Or.inr ((ih (i + 1) _).mpr ⟨j2, ?_, by omega, by simpa using hne⟩))
          simp only [List.length_cons] at hj
          omega

/-- C7: over a GPT entry array laid out as `blocks.length` slots of 128
bytes, the decode returns exactly the populated slots (an all-zero type
GUID is skipped and the scan continues), the produced indices are the
1-based on-disk slot positions, and an index appears exactly for the
populated slots. -/
theorem c7_zero_guid_skip :
    (∀ (s : ByteSource) (hdr : GPTHeader) (bs : Nat) (blocks : List (List Nat)),
      hdr.part_entry_size = 128 → hdr.num_part_entries = blocks.length →
      (∀ b ∈ blocks, b.length = 128) →
      slice s.data (hdr.part_entry_start_lba * bs) (128 * blocks.length) = flat blocks →
      (∀ b ∈ blocks, entryNameOk b = true) →
      ∃ st, read_gpt_partitions s hdr bs = .ok (gptEntriesSpec 0 blocks, st)) ∧
    (∀ (i : Nat) (blocks : List (List Nat)),
      (∀ b ∈ blocks, entryNameOk b = true) →
      (gptEntriesSpec i blocks).map (fun p => p.index) = populatedIdxs i blocks) ∧
    (∀ (i x : Nat) (blocks : List (List Nat)),
      x ∈ populatedIdxs i blocks ↔
        ∃ j, j < blocks.length ∧ x = i + j + 1 ∧
          slice (blocks.getD j []) 0 16 ≠ zeros16) := by
  refine ⟨?_, fun i blocks h => gptEntriesSpec_map_index blocks i h,
    fun i x blocks => populatedIdxs_mem blocks i x⟩
  intro s hdr bs blocks hsize hnum hlens hdata hnames
  unfold read_gpt_partitions
  rw [hsize, hnum]
  exact read_gpt_entries_spec blocks (s.seek (hdr.part_entry_start_lba * bs)) 0
    hlens hdata hnames

/-- A populated 128-byte GPT slot (EFI System type GUID, all-zero name). -/
def c7Pop : List Nat :=
  efiSystemGuidLE ++ List.replicate 16 2 ++ le8 100 ++ le8 200 ++ le8 0 ++
    List.replicate 72 0

/-- The 128 slots with only slots 1 and 50 (1-based) populated. -/
def blocks128 : List (List Nat) :=
  (List.range 128).map (fun j => if j = 0 ∨ j = 49 then c7Pop else List.replicate 128 0)

/-- A GPT header declaring 128 entries of 128 bytes starting at LBA 2. -/
def c7Hdr : GPTHeader :=
  { signature := [0x45, 0x46, 0x49, 0x20, 0x50, 0x41, 0x52, 0x54]
    revision_minor := 0
    revision_major := 1
    header_size := 92
    crc32 := 0
    current_lba := 1
    backup_lba := 0
    first_usable_lba := 34
    last_usable_lba := 100000
    disk_guid := ""
    part_entry_start_lba := 2
    num_part_entries := 128
    part_entry_size := 128
    crc32_part_array := 0 }

theorem c7_zero_guid_skip_witness :
    (∃ st, read_gpt_partitions ⟨List.replicate 1024 0 ++ flat blocks128, 0, []⟩ c7Hdr 512 =
      .ok (gptEntriesSpec 0 blocks128, st)) ∧
    (gptEntriesSpec 0 blocks128).map (fun p => p.index) = populatedIdxs 0 blocks128 ∧
    populatedIdxs 0 blocks128 = [1, 50] := by
  refine ⟨?_, c7_zero_guid_skip.2.1 0 blocks128 (by decide), by decide⟩
  refine c7_zero_guid_skip.1 ⟨List.replicate 1024 0 ++ flat blocks128, 0, []⟩ c7Hdr 512
    blocks128 rfl (by decide) (by decide) ?_ (by decide)
  have hlens : ∀ b ∈ blocks128, b.length = 128 := by decide
  have hflen : (flat blocks128).length = 128 * blocks128.length := flat_length _ hlens
  show slice (List.replicate 1024 0 ++ flat blocks128) (c7Hdr.part_entry_start_lba * 512)
      (128 * blocks128.length) = flat blocks128
  rw [show c7Hdr.part_entry_start_lba * 512 = (List.replicate 1024 (0 : Nat)).length from rfl]
  unfold slice
  rw [List.drop_left, ← hflen, List.take_length]

/-- C8 (amended): internally each failure is a scheme-specific exception
with a human-readable reason, and when every scheme's failure is a caught
one the other schemes are still decoded; but the caller-visible outcome is
not a three-way tag: the `info` attribute is `None` for Absent and Corrupt
alike — Corrupt differs only by a fixed diagnostic printed to stdout for
MBR and GPT, and not at all for Disklabel. -/
theorem c8_outcomes (s : ByteSource) (dev : Device) (fuel : Nat) :
    (∀ m, mbrDecodeBody s fuel = .error (.mbrMissing m) →
      mbrCtorE s fuel = .ok ⟨none, none⟩) ∧
    (∀ m, mbrDecodeBody s fuel = .error (.mbrError m) →
      mbrCtorE s fuel = .ok ⟨none, some "Error reading MBR!"⟩) ∧
    (∀ m, gptDecodeBody dev.stream (devBlock dev) = .error (.gptMissing m) →
      gptCtorE dev = .ok ⟨none, none⟩) ∧
    (∀ m, gptDecodeBody dev.stream (devBlock dev) = .error (.gptError m) →
      gptCtorE dev = .ok ⟨none, some "Error reading GPT!"⟩) ∧
    (∀ m, dlDecodeBody dev.stream (devBlock dev) = .error (.disklabelMissing m) →
      dlCtorE dev = .ok ⟨none, none⟩) ∧
    (∀ m, dlDecodeBody dev.stream (devBlock dev) = .error (.disklabelError m) →
      dlCtorE dev = .ok ⟨none, none⟩) ∧
    (∀ mv gv dv, mbrCtorDev dev fuel = .ok mv → gptCtorE dev = .ok gv →
      dlCtorE dev = .ok dv → get_info dev fuel = .ok (mv, gv, dv)) := by
  refine ⟨?_, ?_, ?_, ?_, ?_, ?_, ?_⟩
  · intro m h
    simp [mbrCtorE, h]
  · intro m h
    simp [mbrCtorE, h]
  · intro m h
    simp [gptCtorE, h]
  · intro m h
    simp [gptCtorE, h]
  · intro m h
    simp [dlCtorE, h]
  · intro m h
    simp [dlCtorE, h]
  · intro mv gv dv h1 h2 h3
    simp [get_info, h1, h2, h3]

/-- A 512-byte all-zero image: no MBR signature (Absent). -/
def c8AbsData : List Nat := List.replicate 512 0

/-- An image with a valid MBR carrying an extended partition whose EBR
sector has a bad signature (Corrupt after a signature match). -/
def c8CorData : List Nat :=
  mbrSector (mbrSlot 0 0x05 1 8) zeros16 zeros16 zeros16 ++ List.replicate 512 0

/-- C8 counterexample: the Corrupt run and the Absent run leave identical
caller-visible `info` state (`None` both), though the internal exceptions
differ; the claimed caller-received three-way tagged result does not
exist. -/
theorem c8_counterexample :
    mbrDecodeBody ⟨c8CorData, 0, []⟩ 4 = .error (.mbrError "Bad EBR signature") ∧
    mbrDecodeBody ⟨c8AbsData, 0, []⟩ 4 = .error (.mbrMissing "Bad MBR signature") ∧
    ctorInfo (mbrCtorE ⟨c8CorData, 0, []⟩ 4) = ctorInfo (mbrCtorE ⟨c8AbsData, 0, []⟩ 4) := by
  exact ⟨by decide, by decide, by decide⟩

/-- A device whose image is 1024 zero bytes: all three schemes Absent. -/
def c8ZeroDev : Device := ⟨⟨List.replicate 1024 0, 0, []⟩, none⟩

theorem c8_outcomes_witness :
    mbrCtorE ⟨c8CorData, 0, []⟩ 4 = .ok ⟨none, some "Error reading MBR!"⟩ ∧
    mbrCtorE ⟨c8AbsData, 0, []⟩ 4 = .ok ⟨none, none⟩ ∧
    get_info c8ZeroDev 4 = .ok (⟨none, none⟩, ⟨none, none⟩, ⟨none, none⟩) := by
  refine ⟨(c8_outcomes ⟨c8CorData, 0, []⟩ c8ZeroDev 4).2.1 "Bad EBR signature" (by decide),
    (c8_outcomes ⟨c8AbsData, 0, []⟩ c8ZeroDev 4).1 "Bad MBR signature" (by decide),
    (c8_outcomes ⟨c8AbsData, 0, []⟩ c8ZeroDev 4).2.2.2.2.2.2 ⟨none, none⟩ ⟨none, none⟩
      ⟨none, none⟩ (by decide) (by decide) (by decide)⟩

/-- C9: each constructor's `info` is `None` until the whole decode (header
plus all partition entries) has succeeded: a non-`None` `info` implies the
header read and the partition read both returned successfully and `info`
is exactly the fully assembled record, and any exception in the decode body
leaves `info` as `None`. -/
theorem c9_info_atomic (s : ByteSource) (dev : Device) (fuel : Nat) :
    (∀ i, ctorInfo (mbrCtorE s fuel) = some i →
      ∃ hdr fp1 parts fp2, read_mbr_header (s.seek 0) = .ok (hdr, fp1) ∧
        read_mbr_partitions fp1 hdr fuel = .ok (parts, fp2) ∧
        i = ⟨512, hdr, parts⟩) ∧
    (∀ e, mbrDecodeBody s fuel = .error e → ctorInfo (mbrCtorE s fuel) = none) ∧
    (∀ i, ctorInfo (gptCtorE dev) = some i →
      ∃ hdr fp1 parts fp2, read_gpt_header (dev.stream.seek 0) (devBlock dev) =
          .ok (hdr, fp1) ∧
        read_gpt_partitions fp1 hdr (devBlock dev) = .ok (parts, fp2) ∧
        i = mkGptInfo (devBlock dev) hdr parts) ∧
    (∀ e, gptDecodeBody dev.stream (devBlock dev) = .error e →
      ctorInfo (gptCtorE dev) = none) ∧
    (∀ i, ctorInfo (dlCtorE dev) = some i →
      ∃ hdr fp1 parts fp2, read_disklabel_header (dev.stream.seek 0) (devBlock dev) =
          .ok (hdr, fp1) ∧
        read_disklabel_partitions fp1 hdr (devBlock dev) = .ok (parts, fp2) ∧
        i = ⟨512, hdr, parts⟩) ∧
    (∀ e, dlDecodeBody dev.stream (devBlock dev) = .error e →
      ctorInfo (dlCtorE dev) = none) := by
  refine ⟨?_, ?_, ?_, ?_, ?_, ?_⟩
  · intro i hi
    unfold mbrCtorE at hi
    cases hbody : mbrDecodeBody s fuel with
    | error e =>
      rw [hbody] at hi
      cases e <;> simp [ctorInfo] at hi
    | ok v =>
      obtain ⟨vi, vs⟩ := v
      rw [hbody] at hi
      simp only [ctorInfo, Option.some.injEq] at hi
      simp only [mbrDecodeBody] at hbody
      cases hh : read_mbr_header (s.seek 0) with
      | error e =>
        rw [hh] at hbody
        simp at hbody
      | ok pr =>
        obtain ⟨hdr, fp1⟩ := pr
        rw [hh] at hbody
        dsimp only at hbody
        cases hp : read_mbr_partitions fp1 hdr fuel with
        | error e =>
          rw [hp] at hbody
          simp at hbody
        | ok pr2 =>
          obtain ⟨parts, fp2⟩ := pr2
          rw [hp] at hbody
          simp only [Except.ok.injEq, Prod.mk.injEq] at hbody
          exact ⟨hdr, fp1, parts, fp2, rfl, hp, by rw [← hi, ← hbody.1]⟩
  · intro e he
    unfold mbrCtorE
    rw [he]
    cases e <;> rfl
  · intro i hi
    unfold gptCtorE at hi
    cases hbody : gptDecodeBody dev.stream (devBlock dev) with
    | error e =>
      rw [hbody] at hi
      cases e <;> simp [ctorInfo] at hi
    | ok v =>
      obtain ⟨vi, vs⟩ := v
      rw [hbody] at hi
      simp only [ctorInfo, Option.some.injEq] at hi
      simp only [gptDecodeBody] at hbody
      cases hh : read_gpt_header (dev.stream.seek 0) (devBlock dev) with
      | error e =>
        rw [hh] at hbody
        simp at hbody
      | ok pr =>
        obtain ⟨hdr, fp1⟩ := pr
        rw [hh] at hbody
        dsimp only at hbody
        cases hp : read_gpt_partitions fp1 hdr (devBlock dev) with
        | error e =>
          rw [hp] at hbody
          simp at hbody
        | ok pr2 =>
          obtain ⟨parts, fp2⟩ := pr2
          rw [hp] at hbody
          simp only [Except.ok.injEq, Prod.mk.injEq] at hbody
          exact ⟨hdr, fp1, parts, fp2, rfl, hp, by rw [← hi, ← hbody.1]⟩
  · intro e he
    unfold gptCtorE
    rw [he]
    cases e <;> rfl
  · intro i hi
    unfold dlCtorE at hi
    cases hbody : dlDecodeBody dev.stream (devBlock dev) with
    | error e =>
      rw [hbody] at hi
      cases e <;> simp [ctorInfo] at hi
    | ok v =>
      obtain ⟨vi, vs⟩ := v
      rw [hbody] at hi
      simp only [ctorInfo, Option.some.injEq] at hi
      simp only [dlDecodeBody] at hbody
      cases hh : read_disklabel_header (dev.stream.seek 0) (devBlock dev) with
      | error e =>
        rw [hh] at hbody
        simp at hbody
      | ok pr =>
        obtain ⟨hdr, fp1⟩ := pr
        rw [hh] at hbody
        dsimp only at hbody
        cases hp : read_disklabel_partitions fp1 hdr (devBlock dev) with
        | error e =>
          rw [hp] at hbody
          simp at hbody
        | ok pr2 =>
          obtain ⟨parts, fp2⟩ := pr2
          rw [hp] at hbody
          simp only [Except.ok.injEq, Prod.mk.injEq] at hbody
          exact ⟨hdr, fp1, parts, fp2, rfl, hp, by rw [← hi, ← hbody.1]⟩
  · intro e he
    unfold dlCtorE
    rw [he]
    cases e <;> rfl

/-- The stream over the two-node-chain image. -/
def mbrWS : ByteSource := ⟨w2Data, 0, []⟩

/-- The fully decoded `MBRInfo` of `w2Data`. -/
def w2Info : MBRInfo :=
  ⟨512, w2Hdr, [some (mkMbrPartition w2Slot1 1), some (mkMbrPartition w2P0 5),
    some (mkMbrPartition w2P1 6)]⟩

/-- The decoded header of `c6Data`. -/
def c6HdrVal : GPTHeader :=
  { signature := [0x45, 0x46, 0x49, 0x20, 0x50, 0x41, 0x52, 0x54]
    revision_minor := 0
    revision_major := 1
    header_size := 92
    crc32 := 0
    current_lba := 1
    backup_lba := 0
    first_usable_lba := 34
    last_usable_lba := 1000
    disk_guid := "11111111-1111-1111-1111-111111111111"
    part_entry_start_lba := 2
    num_part_entries := 0
    part_entry_size := 128
    crc32_part_array := 0 }

/-- The fully decoded `GPTInfo` of `c6Data` (zero declared entries). -/
def c6Info : GPTInfo := mkGptInfo 512 c6HdrVal []

/-- A device holding `c6Data`, block-size query failing. -/
def gptWDev : Device := ⟨⟨c6Data, 0, []⟩, none⟩

/-- A valid 148-byte disklabel header with zero slices. -/
def dlHeader148 : List Nat :=
  [0x57, 0x45, 0x56, 0x82] ++ le4 0 ++ List.replicate 16 0 ++ List.replicate 16 0 ++
    le4 512 ++ List.replicate 88 0 ++ [0x57, 0x45, 0x56, 0x82] ++ [0, 0] ++ [0, 0] ++
    le4 0 ++ le4 0

/-- Image carrying `dlHeader148` after one 512-byte block. -/
def dlWData : List Nat := List.replicate 512 0 ++ dlHeader148

/-- A device holding `dlWData`. -/
def dlWDev : Device := ⟨⟨dlWData, 0, []⟩, none⟩

/-- The decoded header of `dlWData`. -/
def dlHdrVal : DisklabelHeader :=
  { signature1 := [0x57, 0x45, 0x56, 0x82]
    controller := [0, 0, 0, 0]
    disklabel := List.replicate 16 0
    pack_id := List.replicate 16 0
    sector_byte := 512
    misc := List.replicate 88 0
    signature2 := [0x57, 0x45, 0x56, 0x82]
    checksum := [0, 0]
    slices_total := 0
    boot_size := 0
    superblock_size := 0
    size := 0x94 }

/-- The fully decoded `DisklabelInfo` of `dlWData`. -/
def dlWInfo : DisklabelInfo := ⟨512, dlHdrVal, []⟩

theorem c9_info_atomic_witness :
    (∃ hdr fp1 parts fp2, read_mbr_header (mbrWS.seek 0) = .ok (hdr, fp1) ∧
      read_mbr_partitions fp1 hdr 8 = .ok (parts, fp2) ∧ w2Info = ⟨512, hdr, parts⟩) ∧
    ctorInfo (mbrCtorE ⟨c8AbsData, 0, []⟩ 4) = none ∧
    (∃ hdr fp1 parts fp2, read_gpt_header (gptWDev.stream.seek 0) (devBlock gptWDev) =
        .ok (hdr, fp1) ∧
      read_gpt_partitions fp1 hdr (devBlock gptWDev) = .ok (parts, fp2) ∧
      c6Info = mkGptInfo (devBlock gptWDev) hdr parts) ∧
    ctorInfo (gptCtorE c8ZeroDev) = none ∧
    (∃ hdr fp1 parts fp2, read_disklabel_header (dlWDev.stream.seek 0) (devBlock dlWDev) =
        .ok (hdr, fp1) ∧
      read_disklabel_partitions fp1 hdr (devBlock dlWDev) = .ok (parts, fp2) ∧
      dlWInfo = ⟨512, hdr, parts⟩) ∧
    ctorInfo (dlCtorE c8ZeroDev) = none := by
  refine ⟨(c9_info_atomic mbrWS gptWDev 8).1 w2Info (by decide),
    (c9_info_atomic ⟨c8AbsData, 0, []⟩ c8ZeroDev 4).2.1
      (.mbrMissing "Bad MBR signature") (by decide),
    (c9_info_atomic mbrWS gptWDev 8).2.2.1 c6Info (by decide),
    (c9_info_atomic mbrWS c8ZeroDev 8).2.2.2.1 (.gptMissing "Bad GPT signature") (by decide),
    (c9_info_atomic mbrWS dlWDev 8).2.2.2.2.1 dlWInfo (by decide),
    (c9_info_atomic mbrWS c8ZeroDev 8).2.2.2.2.2
      (.disklabelMissing "Bad Disklabel signature") (by decide)⟩

/-- Every seek the EBR walk performs is at a byte offset of the form
`(extended_lba + rel) * 512`. -/
theorem read_ebr_seek_offsets : ∀ (f : Nat) (s : ByteSource) (e l n : Nat)
    (parts : List (Option MBRPartition)) (st : ByteSource),
    read_ebr_partition s e l n f = .ok (parts, st) →
    ∃ offs, st.seekLog = s.seekLog ++ offs ∧ ∀ o ∈ offs, ∃ rr, o = (e + rr) * 512 := by
  intro f
  induction f with
  | zero =>
    intro s e l n parts st h
    exact absurd h (by simp [read_ebr_partition])
  | succ f ih =>
    intro s e l n parts st h
    simp only [read_ebr_partition, ByteSource.seek, ByteSource.read] at h
    by_cases h1 : (slice s.data ((e + l) * 512) 512).length ≠ 512
    · rw [if_pos h1] at h
      simp at h
    · rw [if_neg h1] at h
      by_cases h2 : slice (slice s.data ((e + l) * 512) 512) 510 2 ≠ [0x55, 0xAA]
      · rw [if_pos h2] at h
        simp at h
      · rw [if_neg h2] at h
        by_cases h3 : slice (slice s.data ((e + l) * 512) 512) 462 16 ≠ zeros16
        · rw [if_pos h3] at h
          cases hm : read_mbr_partition (slice (slice s.data ((e + l) * 512) 512) 462 16) 0 with
          | none =>
            rw [hm] at h
            simp at h
          | some pn =>
            rw [hm] at h
            dsimp only at h
            cases hr : read_ebr_partition
                ⟨s.data, (e + l) * 512 + (slice s.data ((e + l) * 512) 512).length,
                  s.seekLog ++ [(e + l) * 512]⟩ e pn.lba (n + 1) f with
            | error e2 =>
              rw [hr] at h
              simp at h
            | ok pr =>
              obtain ⟨more, fp3⟩ := pr
              rw [hr] at h
              simp only [Except.ok.injEq, Prod.mk.injEq] at h
              obtain ⟨offs, ho1, ho2⟩ := ih _ e pn.lba (n + 1) more fp3 hr
              refine ⟨(e + l) * 512 :: offs, ?_, ?_⟩
              · rw [← h.2, ho1]
                simp
              · intro o ho
                rcases List.mem_cons.mp ho with rfl | ho2m
                · exact ⟨l, rfl⟩
                · exact ho2 o ho2m
        · rw [if_neg h3] at h
          simp only [Except.ok.injEq, Prod.mk.injEq] at h
          refine ⟨[(e + l) * 512], ?_, ?_⟩
          · rw [← h.2]
          · intro o ho
            rcases List.mem_singleton.mp ho with rfl
            exact ⟨l, rfl⟩

/-- C10: the MBR parser uses a fixed 512-byte sector size: its outcome is a
function of the stream alone (the device-reported block size is never
queried), a successful decode reports `lba_size = 512`, and every EBR seek
offset has the form `(extended_lba + rel) * 512`; the GPT and disklabel
parsers use the queried block size and behave on a failed query exactly as
on a device reporting 512. -/
theorem c10_sector_size (d d2 : Device) (fuel : Nat) :
    (d.stream = d2.stream → mbrCtorDev d fuel = mbrCtorDev d2 fuel) ∧
    (∀ i, ctorInfo (mbrCtorDev d fuel) = some i → i.lba_size = 512) ∧
    (∀ e l n f parts st, read_ebr_partition d.stream e l n f = .ok (parts, st) →
      ∃ offs, st.seekLog = d.stream.seekLog ++ offs ∧
        ∀ o ∈ offs, ∃ rr, o = (e + rr) * 512) ∧
    (d.blocksize = none → gptCtorE d = gptCtorE ⟨d.stream, some 512⟩) ∧
    (d.blocksize = none → dlCtorE d = dlCtorE ⟨d.stream, some 512⟩) := by
  refine ⟨?_, ?_, ?_, ?_, ?_⟩
  · intro h
    unfold mbrCtorDev
    rw [h]
  · intro i hi
    unfold mbrCtorDev mbrCtorE at hi
    cases hbody : mbrDecodeBody d.stream fuel with
    | error e =>
      rw [hbody] at hi
      cases e <;> simp [ctorInfo] at hi
    | ok v =>
      obtain ⟨vi, vs⟩ := v
      rw [hbody] at hi
      simp only [ctorInfo, Option.some.injEq] at hi
      simp only [mbrDecodeBody] at hbody
      cases hh : read_mbr_header (d.stream.seek 0) with
      | error e =>
        rw [hh] at hbody
        simp at hbody
      | ok pr =>
        obtain ⟨hdr, fp1⟩ := pr
        rw [hh] at hbody
        dsimp only at hbody
        cases hp : read_mbr_partitions fp1 hdr fuel with
        | error e =>
          rw [hp] at hbody
          simp at hbody
        | ok pr2 =>
          obtain ⟨parts, fp2⟩ := pr2
          rw [hp] at hbody
          simp only [Except.ok.injEq, Prod.mk.injEq] at hbody
          rw [← hi, ← hbody.1]
  · intro e l n f parts st h
    exact read_ebr_seek_offsets f d.stream e l n parts st h
  · intro h
    unfold gptCtorE devBlock
    rw [h]
    rfl
  · intro h
    unfold dlCtorE devBlock
    rw [h]
    rfl

/-- A device over `w2Data` with a failing block-size query, and the same
stream with a reported 4096-byte block size. -/
def c10Dev : Device := ⟨mbrWS, none⟩

/-- Same stream, device reporting 4096-byte blocks. -/
def c10Dev2 : Device := ⟨mbrWS, some 4096⟩

theorem c10_sector_size_witness :
    mbrCtorDev c10Dev 8 = mbrCtorDev c10Dev2 8 ∧
    w2Info.lba_size = 512 ∧
    (∃ offs, (⟨w2Data, 1536, [512, 1024]⟩ : ByteSource).seekLog =
      (⟨w2Data, 0, []⟩ : ByteSource).seekLog ++ offs ∧
      ∀ o ∈ offs, ∃ rr, o = (1 + rr) * 512) ∧
    gptCtorE c10Dev = gptCtorE ⟨c10Dev.stream, some 512⟩ ∧
    dlCtorE c10Dev = dlCtorE ⟨c10Dev.stream, some 512⟩ := by
  refine ⟨(c10_sector_size c10Dev c10Dev2 8).1 rfl,
    (c10_sector_size c10Dev c10Dev2 8).2.1 w2Info (by decide),
    ?_,
    (c10_sector_size c10Dev c10Dev2 8).2.2.2.1 rfl,
    (c10_sector_size c10Dev c10Dev2 8).2.2.2.2 rfl⟩
  exact (c10_sector_size c10Dev c10Dev2 8).2.2.1 1 0 5 4
    [some (mkMbrPartition w2P0 5), some (mkMbrPartition w2P1 6)]
    ⟨w2Data, 1536, [512, 1024]⟩ rfl

end Partition
